import Mathlib

set_option maxRecDepth 100000

/-
Verification of the pps-msibi workflow scripts.

The repository is a collection of signac/flow orchestration scripts around
external MD and MSIBI libraries.  This file gives a shallow embedding of the
parts of the scripts that the specification talks about:

* the parameter-sweep `init.py` scripts (Cartesian product of parameter value
  lists, signac job store with `setdefault` document flags);
* the flow `project.py` operation graphs (pre/post completion predicates);
* the bodies of the operation functions, embedded as traces of the statements
  they execute (name references, state-point key accesses, document writes,
  external calls);
* the pure helper functions in `utils/utils.py` and `notebooks/utils.py`.
-/

namespace PPSMSIBI

/-- A primitive Python value as it appears in state points and job documents.
A numeric literal is embedded as the pair of its integer mantissa and its
decimal denominator: `1.32` is `num 132 100`, `5e7` is `num 50000000 1`,
`42` is `num 42 1`. -/
inductive PVal where
  | num (n : Int) (d : Nat)
  | bool (b : Bool)
  | str (s : String)
deriving DecidableEq, Repr

/-- A state point: the `dict(zip(param_names, params))` built by each
`init.py`, embedded as an association list in key order. -/
abbrev Statepoint := List (String × PVal)

/-- `itertools.product(*lists)`: all combinations, first list varying
slowest, exactly the order `itertools.product` yields. -/
def cartProduct {α : Type} : List (List α) → List (List α)
  | [] => [[]]
  | l :: ls => l.flatMap (fun v => (cartProduct ls).map (fun c => v :: c))

/-- The list of state points produced by `get_parameters` plus the
`dict(zip(param_names, params))` step of `main` in every `init.py`:
one state point per element of `itertools.product` over the value lists. -/
def statepoints (names : List String) (vals : List (List PVal)) :
    List Statepoint :=
  (cartProduct vals).map (fun combo => names.zip combo)

/-- One record of the signac job store: a state point together with the
job's mutable document. -/
structure JobRecord where
  sp : Statepoint
  doc : List (String × PVal)
deriving DecidableEq, Repr

/-- Modelled from the spec: the signac job-workspace library "stores state
points and per-job mutable documents as key-value records"; the store is the
list of job records in creation order. -/
abbrev Store := List JobRecord

/-- Modelled from the spec: `project.open_job(statepoint)` followed by
`job.init()` — opening a job with an identical state point yields the same
job, so a job is appended only when no record with that state point exists. -/
def openJobInit (sp : Statepoint) (s : Store) : Store :=
  if s.any (fun r => r.sp == sp) then s else s ++ [⟨sp, []⟩]

/-- `dict.setdefault(k, v)` on a job document: write `v` under `k` only
when `k` is not already present. -/
def docSetdefault (k : String) (v : PVal) (d : List (String × PVal)) :
    List (String × PVal) :=
  if d.any (fun kv => kv.1 == k) then d else d ++ [(k, v)]

/-- `job.doc.setdefault(k, v)` applied to the job with state point `sp`. -/
def storeSetdefault (sp : Statepoint) (k : String) (v : PVal) (s : Store) :
    Store :=
  s.map (fun r => if r.sp == sp then ⟨r.sp, docSetdefault k v r.doc⟩ else r)

/-- The per-job body of the `main` loop of an `init.py`:
`job = project.open_job(statepoint); job.init()` followed by
`job.doc.setdefault(flag, default)` for each flag in `flags`. -/
def initJob (flags : List (String × PVal)) (s : Store) (sp : Statepoint) :
    Store :=
  flags.foldl (fun s' kv => storeSetdefault sp kv.1 kv.2 s') (openJobInit sp s)

/-- `main()` of an `init.py`: iterate the `initJob` body over every state
point of the parameter product. -/
def runMain (names : List String) (vals : List (List PVal))
    (flags : List (String × PVal)) (s : Store) : Store :=
  (statepoints names vals).foldl (initJob flags) s

/-- The parameter names of `training-runs/bulk-states/init.py`
(`get_parameters`, in `OrderedDict` insertion order). -/
def bulkStatesParamNames : List String :=
  ["num_mols", "lengths", "density", "remove_hydrogens", "remove_charges",
   "sigma_scale", "kT", "pressure", "n_steps", "shrink_kT", "shrink_n_steps",
   "shrink_period", "r_cut", "tau_kT", "tau_pressure", "gsd_write_freq",
   "log_write_freq", "sim_seed"]

/-- The parameter value lists of `training-runs/bulk-states/init.py`, in the
same order as `bulkStatesParamNames`. -/
def bulkStatesParamVals : List (List PVal) :=
  [[.num 50 1], [.num 30 1], [.num 132 100], [.bool false], [.bool false],
   [.num 96 100], [.num 15 10, .num 22 10, .num 25 10, .num 28 10],
   [.num 2332 1000000], [.num 50000000 1], [.num 80 10], [.num 50000000 1],
   [.num 10000 1], [.num 25 10], [.num 100 1], [.num 10 1], [.num 100000 1],
   [.num 10000 1], [.num 42 1]]

/-- The document flags written with `setdefault` by
`training-runs/bulk-states/init.py` `main`. -/
def bulkStatesFlags : List (String × PVal) :=
  [("sim_done", .bool false), ("sample_done", .bool false)]

/-- The store produced by running `training-runs/bulk-states/init.py`
`main()` on an empty workspace. -/
def bulkStatesStore : Store :=
  runMain bulkStatesParamNames bulkStatesParamVals bulkStatesFlags []

/-- The state points of the records of a store, in store order. -/
def storeSps (s : Store) : List Statepoint := s.map (fun r => r.sp)

/-- Look up a key of a state point (first occurrence). -/
def spLookup (k : String) (sp : Statepoint) : Option PVal :=
  sp.lookup k

lemma any_sp_eq_iff (s : Store) (sp : Statepoint) :
    (s.any (fun r => r.sp == sp) = true) ↔ sp ∈ storeSps s := by
  rw [List.any_eq_true]
  constructor
  · rintro ⟨r, hr, hbeq⟩
    exact (beq_iff_eq.1 hbeq) ▸ List.mem_map_of_mem _ hr
  · intro h
    rcases List.mem_map.1 h with ⟨r, hr, heq⟩
    exact ⟨r, hr, beq_iff_eq.2 heq⟩

lemma setdefault_point_sp (sp : Statepoint) (k : String) (v : PVal)
    (r : JobRecord) :
    (if r.sp == sp then (⟨r.sp, docSetdefault k v r.doc⟩ : JobRecord)
     else r).sp = r.sp := by
  split <;> rfl

lemma storeSps_storeSetdefault (sp : Statepoint) (k : String) (v : PVal)
    (s : Store) : storeSps (storeSetdefault sp k v s) = storeSps s := by
  simp only [storeSps, storeSetdefault, List.map_map]
  exact List.map_congr_left (fun r _ => setdefault_point_sp sp k v r)

lemma storeSps_setdefaults (sp : Statepoint) :
    ∀ (flags : List (String × PVal)) (s : Store),
      storeSps (flags.foldl (fun s' kv => storeSetdefault sp kv.1 kv.2 s') s)
        = storeSps s := by
  intro flags
  induction flags with
  | nil => intro s; rfl
  | cons kv rest ih =>
    intro s
    simp only [List.foldl_cons]
    rw [ih, storeSps_storeSetdefault]

lemma storeSps_openJobInit (sp : Statepoint) (s : Store) :
    storeSps (openJobInit sp s)
      = if sp ∈ storeSps s then storeSps s else storeSps s ++ [sp] := by
  simp only [openJobInit]
  by_cases h : sp ∈ storeSps s
  · rw [if_pos ((any_sp_eq_iff s sp).2 h), if_pos h]
  · rw [if_neg (fun hc => h ((any_sp_eq_iff s sp).1 hc)), if_neg h]
    simp [storeSps]

lemma storeSps_initJob (flags : List (String × PVal)) (s : Store)
    (sp : Statepoint) :
    storeSps (initJob flags s sp)
      = if sp ∈ storeSps s then storeSps s else storeSps s ++ [sp] := by
  rw [initJob, storeSps_setdefaults, storeSps_openJobInit]

lemma foldl_initJob_sps (flags : List (String × PVal)) :
    ∀ (l : List Statepoint) (s : Store), l.Nodup →
      (∀ x ∈ l, x ∉ storeSps s) →
      storeSps (l.foldl (initJob flags) s) = storeSps s ++ l := by
  intro l
  induction l with
  | nil => intro s _ _; simp
  | cons x xs ih =>
    intro s hnd hdisj
    have hx : x ∉ storeSps s := hdisj x (by simp)
    have h1 : storeSps (initJob flags s x) = storeSps s ++ [x] := by
      rw [storeSps_initJob, if_neg hx]
    have hdisj' : ∀ y ∈ xs, y ∉ storeSps (initJob flags s x) := by
      intro y hy hmem
      rw [h1] at hmem
      rcases List.mem_append.1 hmem with hmem | hmem
      · exact hdisj y (List.mem_cons_of_mem _ hy) hmem
      · rw [List.mem_singleton] at hmem
        subst hmem
        exact (List.nodup_cons.1 hnd).1 hy
    simp only [List.foldl_cons]
    rw [ih (initJob flags s x) hnd.of_cons hdisj', h1, List.append_assoc,
      List.singleton_append]

lemma cartProduct_length {α : Type} :
    ∀ (ls : List (List α)),
      (cartProduct ls).length = (ls.map List.length).prod := by
  intro ls
  induction ls with
  | nil => rfl
  | cons l ls ih =>
    have hconst : List.map
        (List.length ∘ fun v => (cartProduct ls).map (fun c => v :: c)) l
        = List.replicate l.length (cartProduct ls).length := by
      rw [← List.map_const']
      exact List.map_congr_left (fun v _ => by simp)
    simp only [cartProduct, List.length_flatMap, hconst, List.map_cons,
      List.prod_cons, List.sum_replicate, smul_eq_mul, ih]

/-- C3: each `init.py` `main()` creates exactly one job per element of
`itertools.product` over the parameter value lists, each state point being
`dict(zip(param_names, combination))`; `training-runs/bulk-states/init.py`
creates exactly 4 jobs, differing only in `kT`, with
`kT ∈ {1.5, 2.2, 2.5, 2.8}`. -/
theorem C3_init_cartesian_product :
    (∀ names vals flags, (statepoints names vals).Nodup →
        storeSps (runMain names vals flags []) = statepoints names vals)
    ∧ (∀ (names : List String) (vals : List (List PVal)),
        (statepoints names vals).length = (vals.map List.length).prod)
    ∧ bulkStatesStore.length = 4
    ∧ (storeSps bulkStatesStore).map (spLookup "kT") =
        [some (.num 15 10), some (.num 22 10), some (.num 25 10),
         some (.num 28 10)]
    ∧ ((storeSps bulkStatesStore).map
        (fun sp => sp.filter (fun kv => !(kv.1 == "kT")))).Pairwise (· = ·) := by
  refine ⟨?_, ?_, ?_, ?_, ?_⟩
  · intro names vals flags hnd
    have := foldl_initJob_sps flags (statepoints names vals) [] hnd
      (by intro x _ hx; simp [storeSps] at hx)
    simpa [runMain, storeSps] using this
  · intro names vals
    simp [statepoints, cartProduct_length]
  · decide
  · decide
  · decide

/-- Witness for C3 at the bulk-states parameters. -/
theorem C3_init_cartesian_product_witness :
    (statepoints bulkStatesParamNames bulkStatesParamVals).Nodup
    ∧ storeSps (runMain bulkStatesParamNames bulkStatesParamVals
          bulkStatesFlags [])
        = statepoints bulkStatesParamNames bulkStatesParamVals :=
  ⟨by decide, C3_init_cartesian_product.1 _ _ _ (by decide)⟩

/-- Is key `k` present in the document `d`? -/
def docHasKey (d : List (String × PVal)) (k : String) : Bool :=
  d.any (fun kv => kv.1 == k)

/-- The document value stored under key `k` for the job with state point
`sp`, if that job exists. -/
def storeDocVal (s : Store) (sp : Statepoint) (k : String) : Option PVal :=
  (s.find? (fun r => r.sp == sp)).bind (fun r => r.doc.lookup k)

/-- Every record of `s` whose state point is `sp` has document key `k`. -/
def pointHasKey (s : Store) (sp : Statepoint) (k : String) : Prop :=
  ∀ r ∈ s, r.sp = sp → docHasKey r.doc k = true

/-- The job for `sp` exists and all the `setdefault` flag keys are present
in its document. -/
def jobReady (flags : List (String × PVal)) (s : Store) (sp : Statepoint) :
    Prop :=
  sp ∈ storeSps s ∧ ∀ kv ∈ flags, pointHasKey s sp kv.1

lemma docHasKey_docSetdefault_self (k : String) (v : PVal)
    (d : List (String × PVal)) :
    docHasKey (docSetdefault k v d) k = true := by
  unfold docSetdefault
  split
  · assumption
  · simp [docHasKey, List.any_append]

lemma docHasKey_docSetdefault_mono (k k' : String) (v : PVal)
    (d : List (String × PVal)) (h : docHasKey d k = true) :
    docHasKey (docSetdefault k' v d) k = true := by
  unfold docSetdefault
  split
  · exact h
  · simp [docHasKey, List.any_append] at h ⊢
    exact Or.inl h

lemma pointHasKey_storeSetdefault_self (sp : Statepoint) (k : String)
    (v : PVal) (s : Store) :
    pointHasKey (storeSetdefault sp k v s) sp k := by
  intro r hr hrsp
  rcases List.mem_map.1 hr with ⟨r₀, hr₀, heq⟩
  by_cases h : (r₀.sp == sp) = true
  · rw [if_pos h] at heq
    rw [← heq]
    exact docHasKey_docSetdefault_self k v r₀.doc
  · rw [if_neg h] at heq
    subst heq
    exact absurd (beq_iff_eq.2 hrsp) h

lemma pointHasKey_storeSetdefault_mono (sp sp' : Statepoint) (k k' : String)
    (v : PVal) (s : Store) (h : pointHasKey s sp k) :
    pointHasKey (storeSetdefault sp' k' v s) sp k := by
  intro r hr hrsp
  rcases List.mem_map.1 hr with ⟨r₀, hr₀, heq⟩
  by_cases hb : (r₀.sp == sp') = true
  · rw [if_pos hb] at heq
    rw [← heq] at hrsp ⊢
    exact docHasKey_docSetdefault_mono k k' v r₀.doc (h r₀ hr₀ hrsp)
  · rw [if_neg hb] at heq
    subst heq
    exact h r₀ hr₀ hrsp

lemma pointHasKey_openJobInit (sp sp' : Statepoint) (k : String) (s : Store)
    (hmem : sp ∈ storeSps s) (h : pointHasKey s sp k) :
    pointHasKey (openJobInit sp' s) sp k := by
  unfold openJobInit
  split
  · exact h
  case isFalse hany =>
    intro r hr hrsp
    rcases List.mem_append.1 hr with hr | hr
    · exact h r hr hrsp
    · rw [List.mem_singleton] at hr
      subst hr
      simp only at hrsp
      subst hrsp
      exact absurd ((any_sp_eq_iff s _).2 hmem) hany

lemma mem_storeSps_openJobInit (sp sp' : Statepoint) (s : Store)
    (h : sp ∈ storeSps s) : sp ∈ storeSps (openJobInit sp' s) := by
  rw [storeSps_openJobInit]
  split
  · exact h
  · exact List.mem_append.2 (Or.inl h)

lemma mem_storeSps_setdefaults (sp sp' : Statepoint)
    (flags : List (String × PVal)) (s : Store) (h : sp ∈ storeSps s) :
    sp ∈ storeSps
      (flags.foldl (fun s' kv => storeSetdefault sp' kv.1 kv.2 s') s) := by
  rw [storeSps_setdefaults]
  exact h

lemma pointHasKey_setdefaults (sp sp' : Statepoint) (k : String)
    (flags : List (String × PVal)) :
    ∀ (s : Store), pointHasKey s sp k →
      pointHasKey
        (flags.foldl (fun s' kv => storeSetdefault sp' kv.1 kv.2 s') s)
        sp k := by
  induction flags with
  | nil => intro s h; exact h
  | cons kv rest ih =>
    intro s h
    exact ih _ (pointHasKey_storeSetdefault_mono sp sp' k kv.1 kv.2 s h)

lemma setdefaults_ready (sp : Statepoint) :
    ∀ (flags : List (String × PVal)) (s : Store), sp ∈ storeSps s →
      jobReady flags
        (flags.foldl (fun s' kv => storeSetdefault sp kv.1 kv.2 s') s) sp := by
  intro flags
  induction flags with
  | nil =>
    intro s hmem
    exact ⟨hmem, by intro kv hkv; cases hkv⟩
  | cons kv rest ih =>
    intro s hmem
    have hmem1 : sp ∈ storeSps (storeSetdefault sp kv.1 kv.2 s) := by
      rw [storeSps_storeSetdefault]; exact hmem
    refine ⟨?_, ?_⟩
    · simp only [List.foldl_cons]
      exact mem_storeSps_setdefaults sp sp rest _ hmem1
    · intro kv' hkv'
      rcases List.mem_cons.1 hkv' with rfl | hkv'
    -- the head flag is established by its own setdefault and preserved
      · simp only [List.foldl_cons]
        exact pointHasKey_setdefaults sp sp kv'.1 rest _
          (pointHasKey_storeSetdefault_self sp kv'.1 kv'.2 s)
      · simp only [List.foldl_cons]
        exact (ih _ hmem1).2 kv' hkv'

lemma initJob_ready (flags : List (String × PVal)) (s : Store)
    (sp : Statepoint) : jobReady flags (initJob flags s sp) sp := by
  unfold initJob
  apply setdefaults_ready
  rw [storeSps_openJobInit]
  split
  · assumption
  · exact List.mem_append.2 (Or.inr (List.mem_singleton.2 rfl))

lemma initJob_pres_ready (flags : List (String × PVal)) (s : Store)
    (sp sp' : Statepoint) (h : jobReady flags s sp) :
    jobReady flags (initJob flags s sp') sp := by
  obtain ⟨hmem, hkeys⟩ := h
  unfold initJob
  refine ⟨?_, ?_⟩
  · exact mem_storeSps_setdefaults sp sp' flags _
      (mem_storeSps_openJobInit sp sp' s hmem)
  · intro kv hkv
    exact pointHasKey_setdefaults sp sp' kv.1 flags _
      (pointHasKey_openJobInit sp sp' kv.1 s hmem (hkeys kv hkv))

lemma foldl_initJob_pres_ready (flags : List (String × PVal))
    (sp : Statepoint) :
    ∀ (l : List Statepoint) (s : Store), jobReady flags s sp →
      jobReady flags (l.foldl (initJob flags) s) sp := by
  intro l
  induction l with
  | nil => intro s h; exact h
  | cons x xs ih =>
    intro s h
    exact ih _ (initJob_pres_ready flags s sp x h)

lemma foldl_initJob_all_ready (flags : List (String × PVal)) :
    ∀ (l : List Statepoint) (s : Store) (sp : Statepoint), sp ∈ l →
      jobReady flags (l.foldl (initJob flags) s) sp := by
  intro l
  induction l with
  | nil => intro s sp h; cases h
  | cons x xs ih =>
    intro s sp h
    rcases List.mem_cons.1 h with rfl | h
    · simp only [List.foldl_cons]
      exact foldl_initJob_pres_ready flags sp xs _
        (initJob_ready flags s sp)
    · simp only [List.foldl_cons]
      exact ih _ sp h

lemma storeSetdefault_noop (sp : Statepoint) (k : String) (v : PVal)
    (s : Store) (h : pointHasKey s sp k) :
    storeSetdefault sp k v s = s := by
  unfold storeSetdefault
  rw [show s.map _ = s.map id from ?_, List.map_id]
  apply List.map_congr_left
  intro r hr
  by_cases hb : (r.sp == sp) = true
  · rw [if_pos hb]
    have hk := h r hr (beq_iff_eq.1 hb)
    unfold docHasKey at hk
    have hd : docSetdefault k v r.doc = r.doc := by
      unfold docSetdefault
      rw [if_pos hk]
    rw [hd]
    rfl
  · rw [if_neg hb]
    rfl

lemma initJob_noop (flags : List (String × PVal)) (s : Store)
    (sp : Statepoint) (h : jobReady flags s sp) :
    initJob flags s sp = s := by
  obtain ⟨hmem, hkeys⟩ := h
  unfold initJob
  have hopen : openJobInit sp s = s := by
    unfold openJobInit
    rw [if_pos ((any_sp_eq_iff s sp).2 hmem)]
  rw [hopen]
  clear hopen
  induction flags with
  | nil => rfl
  | cons kv rest ih =>
    simp only [List.foldl_cons]
    rw [storeSetdefault_noop sp kv.1 kv.2 s (hkeys kv (by simp))]
    exact ih (fun kv' h' => hkeys kv' (List.mem_cons_of_mem _ h'))

lemma foldl_initJob_noop (flags : List (String × PVal)) :
    ∀ (l : List Statepoint) (s : Store),
      (∀ sp ∈ l, jobReady flags s sp) →
      l.foldl (initJob flags) s = s := by
  intro l
  induction l with
  | nil => intro s _; rfl
  | cons x xs ih =>
    intro s h
    simp only [List.foldl_cons]
    rw [initJob_noop flags s x (h x (by simp))]
    exact ih s (fun sp hsp => h sp (List.mem_cons_of_mem _ hsp))

lemma lookup_append_some {d e : List (String × PVal)} {k : String}
    {w : PVal} (h : d.lookup k = some w) : (d ++ e).lookup k = some w := by
  induction d with
  | nil => cases h
  | cons kv rest ih =>
    simp only [List.lookup, List.cons_append] at h ⊢
    split at h
    · exact h
    · exact ih h

lemma lookup_docSetdefault_some {d : List (String × PVal)} {k k' : String}
    {v w : PVal} (h : d.lookup k = some w) :
    (docSetdefault k' v d).lookup k = some w := by
  unfold docSetdefault
  split
  · exact h
  · exact lookup_append_some h

lemma find?_append_some {s t : Store} {p : JobRecord → Bool} {r : JobRecord}
    (h : s.find? p = some r) : (s ++ t).find? p = some r := by
  induction s with
  | nil => cases h
  | cons x xs ih =>
    simp only [List.find?, List.cons_append] at h ⊢
    split at h
    · exact h
    · exact ih h

lemma find?_map_sp (sp : Statepoint) (f : JobRecord → JobRecord)
    (hf : ∀ r, (f r).sp = r.sp) :
    ∀ (s : Store), (s.map f).find? (fun r => r.sp == sp)
      = Option.map f (s.find? (fun r => r.sp == sp)) := by
  intro s
  induction s with
  | nil => rfl
  | cons r rs ih =>
    simp only [List.map_cons, List.find?]
    rw [hf r]
    split
    · rfl
    · exact ih

lemma storeDocVal_storeSetdefault {s : Store} {sp : Statepoint} {k : String}
    {w : PVal} (sp' : Statepoint) (k' : String) (v : PVal)
    (h : storeDocVal s sp k = some w) :
    storeDocVal (storeSetdefault sp' k' v s) sp k = some w := by
  unfold storeDocVal storeSetdefault at *
  rw [find?_map_sp sp _ (fun r => by split <;> rfl)]
  rcases hf : s.find? (fun r => r.sp == sp) with _ | r
  · rw [hf] at h; cases h
  · rw [hf] at h ⊢
    have h' : r.doc.lookup k = some w := h
    rw [Option.map_some']
    split
    · exact lookup_docSetdefault_some h'
    · exact h'

lemma storeDocVal_openJobInit {s : Store} {sp : Statepoint} {k : String}
    {w : PVal} (sp' : Statepoint) (h : storeDocVal s sp k = some w) :
    storeDocVal (openJobInit sp' s) sp k = some w := by
  unfold storeDocVal openJobInit at *
  split
  · exact h
  · rcases hf : s.find? (fun r => r.sp == sp) with _ | r
    · rw [hf] at h; cases h
    · rw [find?_append_some hf]
      rw [hf] at h
      exact h

lemma storeDocVal_initJob {s : Store} {sp : Statepoint} {k : String}
    {w : PVal} (flags : List (String × PVal)) (sp' : Statepoint)
    (h : storeDocVal s sp k = some w) :
    storeDocVal (initJob flags s sp') sp k = some w := by
  unfold initJob
  have hbase := storeDocVal_openJobInit (s := s) sp' h
  revert hbase
  generalize openJobInit sp' s = t
  intro hbase
  induction flags generalizing t with
  | nil => exact hbase
  | cons kv rest ih =>
    simp only [List.foldl_cons]
    exact ih _ (storeDocVal_storeSetdefault sp' kv.1 kv.2 hbase)

lemma storeDocVal_foldl_initJob {sp : Statepoint} {k : String} {w : PVal}
    (flags : List (String × PVal)) :
    ∀ (l : List Statepoint) (s : Store), storeDocVal s sp k = some w →
      storeDocVal (l.foldl (initJob flags) s) sp k = some w := by
  intro l
  induction l with
  | nil => intro s h; exact h
  | cons x xs ih =>
    intro s h
    exact ih _ (storeDocVal_initJob flags x h)

/-- C6: re-running an `init.py` `main()` is idempotent on the job store
(no new jobs are created, since opening a job with an identical state point
yields the same job), and — because document flags are written with
`setdefault` — it never overwrites an existing per-job document value. -/
theorem C6_init_main_idempotent :
    (∀ names vals flags s,
        runMain names vals flags (runMain names vals flags s)
          = runMain names vals flags s)
    ∧ (∀ names vals flags s sp k w, storeDocVal s sp k = some w →
        storeDocVal (runMain names vals flags s) sp k = some w) := by
  constructor
  · intro names vals flags s
    unfold runMain
    apply foldl_initJob_noop
    intro sp hsp
    exact foldl_initJob_all_ready flags _ s sp hsp
  · intro names vals flags s sp k w h
    exact storeDocVal_foldl_initJob flags _ s h

/-- Witness for C6: a job document flag already set to `True` stays `True`
across a second run of the bulk-states `main()`. -/
theorem C6_init_main_idempotent_witness :
    storeDocVal [⟨[("kT", .num 15 10)], [("sim_done", .bool true)]⟩]
        [("kT", .num 15 10)] "sim_done" = some (.bool true)
    ∧ storeDocVal
        (runMain bulkStatesParamNames bulkStatesParamVals bulkStatesFlags
          [⟨[("kT", .num 15 10)], [("sim_done", .bool true)]⟩])
        [("kT", .num 15 10)] "sim_done" = some (.bool true) :=
  ⟨by decide,
   C6_init_main_idempotent.2 bulkStatesParamNames bulkStatesParamVals
     bulkStatesFlags _ _ _ _ (by decide)⟩

/-- A flow operation of a `project.py`: its decorator `name`, the list of
`@Project.pre(...)` predicates, the list of `@Project.post(...)` predicates,
and its effect on the modelled job-document fields. -/
structure FlowOp (δ : Type) where
  name : String
  pre : List (δ → Bool)
  post : List (δ → Bool)
  effect : δ → δ

/-- Modelled from the spec: the external workflow manager ("operation graphs
with pre/post predicates") makes an operation eligible on a job exactly when
every one of its pre-condition predicates is true and its post condition is
not yet satisfied. -/
def eligible {δ : Type} (op : FlowOp δ) (d : δ) : Bool :=
  (op.pre.all fun p => p d) && !(op.post.all fun p => p d)

/-- Modelled from the spec: one step of the workflow executes an eligible
operation of the project on a job, transforming its document. -/
inductive FlowStep {δ : Type} (ops : List (FlowOp δ)) :
    δ → FlowOp δ → δ → Prop where
  | run (op : FlowOp δ) (d : δ) (hop : op ∈ ops)
      (helig : eligible op d = true) : FlowStep ops d op (op.effect d)

/-- The job-document fields of `validation/project.py` that its completion
predicates read (`validation/init.py` seeds `volume_sampled`; the operations
write `npt_runs` / `nvt_runs`). -/
structure ValidationDoc where
  volume_sampled : Bool
  msd_sampled : Bool
  npt_runs : ℕ
  nvt_runs : ℕ
  npt_equilibrated : Bool
  nvt_equilibrated : Bool
deriving DecidableEq, Repr

/-- `sample_volume_done(job)` of `validation/project.py`. -/
def sample_volume_done (d : ValidationDoc) : Bool := d.volume_sampled

/-- `initial_npt_run_done(job)` of `validation/project.py`:
`job.doc.npt_runs >= 1`. -/
def initial_npt_run_done (d : ValidationDoc) : Bool := decide (1 ≤ d.npt_runs)

/-- `initial_nvt_run_done(job)` of `validation/project.py`:
`job.doc.nvt_runs >= 1`. -/
def initial_nvt_run_done (d : ValidationDoc) : Bool := decide (1 ≤ d.nvt_runs)

/-- `npt_equilibrated(job)` of `validation/project.py`. -/
def npt_equilibrated (d : ValidationDoc) : Bool := d.npt_equilibrated

/-- `nvt_equilibrated(job)` of `validation/project.py`. -/
def nvt_equilibrated (d : ValidationDoc) : Bool := d.nvt_equilibrated

/-- The `npt` operation (`run_npt`): no pre, post `initial_npt_run_done`;
it ends with `job.doc.npt_runs = 1`. -/
def run_npt_op : FlowOp ValidationDoc :=
  { name := "npt", pre := [], post := [initial_npt_run_done],
    effect := fun d => { d with npt_runs := 1 } }

/-- The `run-npt-longer` operation (`run_npt_longer`): pre
`initial_npt_run_done`, post `npt_equilibrated`; it ends with
`job.doc.npt_runs += 1`. -/
def run_npt_longer_op : FlowOp ValidationDoc :=
  { name := "run-npt-longer", pre := [initial_npt_run_done],
    post := [npt_equilibrated],
    effect := fun d => { d with npt_runs := d.npt_runs + 1 } }

/-- The `nvt` operation (`run_nvt`): pre `sample_volume_done`, post
`initial_nvt_run_done`; it ends with `job.doc.nvt_runs = 1`. -/
def run_nvt_op : FlowOp ValidationDoc :=
  { name := "nvt", pre := [sample_volume_done],
    post := [initial_nvt_run_done],
    effect := fun d => { d with nvt_runs := 1 } }

/-- The `run-nvt-longer` operation (`run_nvt_longer`): pre
`initial_nvt_run_done`, post `nvt_equilibrated`; it ends with
`job.doc.nvt_runs += 1`. -/
def run_nvt_longer_op : FlowOp ValidationDoc :=
  { name := "run-nvt-longer", pre := [initial_nvt_run_done],
    post := [nvt_equilibrated],
    effect := fun d => { d with nvt_runs := d.nvt_runs + 1 } }

/-- The operations of `validation/project.py`. -/
def validationOps : List (FlowOp ValidationDoc) :=
  [run_npt_op, run_npt_longer_op, run_nvt_op, run_nvt_longer_op]

/-- C1: workflow operations of the validation project are gated by their
completion predicates: under the workflow step relation an operation never
runs on a job whose precondition predicate is false; in particular
`run_npt_longer` runs only when `job.doc.npt_runs >= 1` and `run_nvt` runs
only when `job.doc.volume_sampled` is true. -/
theorem C1_validation_gating (d : ValidationDoc) (op : FlowOp ValidationDoc)
    (d' : ValidationDoc) (hstep : FlowStep validationOps d op d') :
    (∀ p ∈ op.pre, p d = true)
    ∧ (op.name = "run-npt-longer" → 1 ≤ d.npt_runs)
    ∧ (op.name = "nvt" → d.volume_sampled = true) := by
  cases hstep with
  | run op d hop helig =>
    have hpre : ∀ p ∈ op.pre, p d = true := by
      intro p hp
      have hall := helig
      unfold eligible at hall
      rw [Bool.and_eq_true] at hall
      exact List.all_eq_true.1 hall.1 p hp
    simp only [validationOps, List.mem_cons, List.mem_singleton,
      List.not_mem_nil, or_false] at hop
    rcases hop with rfl | rfl | rfl | rfl
    · exact ⟨hpre, fun h => absurd h (by decide),
        fun h => absurd h (by decide)⟩
    · refine ⟨hpre, fun _ => ?_, fun h => absurd h (by decide)⟩
      have := hpre initial_npt_run_done (by simp [run_npt_longer_op])
      exact of_decide_eq_true this
    · refine ⟨hpre, fun h => absurd h (by decide), fun _ => ?_⟩
      exact hpre sample_volume_done (by simp [run_nvt_op])
    · exact ⟨hpre, fun h => absurd h (by decide),
        fun h => absurd h (by decide)⟩

/-- Witness for C1: a concrete eligible `run-npt-longer` step on a document
with `npt_runs = 1`. -/
theorem C1_validation_gating_witness :
    (∀ p ∈ run_npt_longer_op.pre,
        p (⟨true, false, 1, 0, false, false⟩ : ValidationDoc) = true)
    ∧ (run_npt_longer_op.name = "run-npt-longer" →
        1 ≤ (⟨true, false, 1, 0, false, false⟩ : ValidationDoc).npt_runs)
    ∧ (run_npt_longer_op.name = "nvt" →
        (⟨true, false, 1, 0, false, false⟩ : ValidationDoc).volume_sampled
          = true) :=
  C1_validation_gating _ _ _
    (FlowStep.run _ _ (by simp [validationOps]) (by decide))

/-- The job data that `utils/utils.py` reads: the `npt_runs` / `nvt_runs`
document counters, and for each log file name and column name the column of
the thermodynamic log that `np.genfromtxt(fpath, names=True)[value]`
returns. -/
structure UtilsJob where
  npt_runs : ℕ
  nvt_runs : ℕ
  logs : String → String → List ℚ

/-- A `ValueError` escaping `combine_log_files`, tagged with its
provenance: `raisedValueError` is the `raise ValueError(...)` statement of
`utils/utils.py` itself; `numpyValueError` is the `ValueError` the external
`np.concatenate` call raises and the function propagates. -/
inductive UtilsErr where
  | raisedValueError (msg : String)
  | numpyValueError (msg : String)
deriving DecidableEq, Repr

/-- The `arrays` list the loop of `combine_log_files` builds: the `value`
column of `log-<ensemble><i>.txt` for `i = 0, ..., n_runs - 1`, appended in
increasing run-index order. -/
def readArrays (job : UtilsJob) (n_runs : ℕ) (ensemble value : String) :
    List (List ℚ) :=
  (List.range n_runs).map
    (fun i => job.logs ("log-" ++ ensemble ++ toString i ++ ".txt") value)

/-- `np.concatenate(arrays)`: the concatenation of the arrays in list
order; on an empty list of arrays numpy raises
`ValueError("need at least one array to concatenate")`. -/
def npConcatenate (arrays : List (List ℚ)) : Except UtilsErr (List ℚ) :=
  if arrays = [] then
    .error (.numpyValueError "need at least one array to concatenate")
  else
    .ok arrays.flatten

/-- `combine_log_files(job, ensemble, value)` of `utils/utils.py`.  The
function itself raises `ValueError(f"Unknown ensemble {ensemble}")` for an
unknown ensemble; for a known ensemble it ends in
`np.concatenate(arrays)`, which raises its own `ValueError` when the run
counter is zero and `arrays` is therefore empty. -/
def combine_log_files (job : UtilsJob) (ensemble value : String) :
    Except UtilsErr (List ℚ) :=
  if ensemble = "npt" then
    npConcatenate (readArrays job job.npt_runs ensemble value)
  else if ensemble = "nvt" then
    npConcatenate (readArrays job job.nvt_runs ensemble value)
  else
    .error (.raisedValueError ("Unknown ensemble " ++ ensemble))

/-- The concatenated NPT volume series of a job. -/
def nptVolumeSeries (job : UtilsJob) : List ℚ :=
  (readArrays job job.npt_runs "npt"
    "mdcomputeThermodynamicQuantitiesvolume").flatten

/-- The concatenated NPT potential-energy series of a job. -/
def nptEnergySeries (job : UtilsJob) : List ℚ :=
  (readArrays job job.npt_runs "npt"
    "mdcomputeThermodynamicQuantitiespotential_energy").flatten

/-- The concatenated NVT potential-energy series of a job. -/
def nvtEnergySeries (job : UtilsJob) : List ℚ :=
  (readArrays job job.nvt_runs "nvt"
    "mdcomputeThermodynamicQuantitiespotential_energy").flatten

/-- `check_npt_equilibration(job, sample_idx)` of `utils/utils.py`,
parametrised by the external `cmeutils.sampling.is_equilibrated` (only its
boolean first component is used, so `isEq data threshold_fraction
threshold_neff` models `is_equilibrated(data, ...)[0]`). -/
def check_npt_equilibration (isEq : List ℚ → ℚ → ℕ → Bool)
    (job : UtilsJob) (sample_idx : ℕ) : Except UtilsErr Bool := do
  let volume ← combine_log_files job "npt"
      "mdcomputeThermodynamicQuantitiesvolume"
  let potential_energy ← combine_log_files job "npt"
      "mdcomputeThermodynamicQuantitiespotential_energy"
  let vol_eq := isEq (volume.drop sample_idx) (15/100) 200
  let pe_eq := isEq (potential_energy.drop sample_idx) (15/100) 200
  return [vol_eq, pe_eq].all id

/-- `check_nvt_equilibration(job, sample_idx)` of `utils/utils.py`. -/
def check_nvt_equilibration (isEq : List ℚ → ℚ → ℕ → Bool)
    (job : UtilsJob) (sample_idx : ℕ) : Except UtilsErr Bool := do
  let potential_energy ← combine_log_files job "nvt"
      "mdcomputeThermodynamicQuantitiespotential_energy"
  let pe_eq := isEq (potential_energy.drop sample_idx) (15/100) 200
  return pe_eq

lemma readArrays_ne_nil (job : UtilsJob) (n : ℕ) (ens v : String)
    (h : 1 ≤ n) : readArrays job n ens v ≠ [] := by
  unfold readArrays
  intro hc
  rw [List.map_eq_nil_iff, List.range_eq_nil] at hc
  omega

lemma npConcatenate_readArrays_ok (job : UtilsJob) (n : ℕ) (ens v : String)
    (h : 1 ≤ n) :
    npConcatenate (readArrays job n ens v)
      = .ok ((readArrays job n ens v).flatten) := by
  unfold npConcatenate
  rw [if_neg (readArrays_ne_nil job n ens v h)]

lemma npConcatenate_error (arrays : List (List ℚ)) (x : UtilsErr)
    (h : npConcatenate arrays = .error x) :
    x = .numpyValueError "need at least one array to concatenate" := by
  unfold npConcatenate at h
  split at h
  · exact (Except.error.inj h).symm
  · exact Except.noConfusion h

lemma combine_npt_ok (job : UtilsJob) (value : String)
    (h : 1 ≤ job.npt_runs) :
    combine_log_files job "npt" value
      = .ok ((readArrays job job.npt_runs "npt" value).flatten) := by
  unfold combine_log_files
  rw [if_pos rfl]
  exact npConcatenate_readArrays_ok job job.npt_runs "npt" value h

lemma combine_nvt_ok (job : UtilsJob) (value : String)
    (h : 1 ≤ job.nvt_runs) :
    combine_log_files job "nvt" value
      = .ok ((readArrays job job.nvt_runs "nvt" value).flatten) := by
  unfold combine_log_files
  rw [if_neg (by decide : ¬("nvt" : String) = "npt"), if_pos rfl]
  exact npConcatenate_readArrays_ok job job.nvt_runs "nvt" value h

lemma combine_npt_err (job : UtilsJob) (value : String)
    (h : job.npt_runs = 0) :
    combine_log_files job "npt" value
      = .error (.numpyValueError
          "need at least one array to concatenate") := by
  unfold combine_log_files
  rw [if_pos rfl, h]
  rfl

lemma combine_nvt_err (job : UtilsJob) (value : String)
    (h : job.nvt_runs = 0) :
    combine_log_files job "nvt" value
      = .error (.numpyValueError
          "need at least one array to concatenate") := by
  unfold combine_log_files
  rw [if_neg (by decide : ¬("nvt" : String) = "npt"), if_pos rfl, h]
  rfl

/-- C8 counterexample: with `job.doc.npt_runs = 0` the loop of
`combine_log_files` appends nothing and the final `np.concatenate(arrays)`
raises `ValueError`, although the ensemble is `"npt"` — so `ValueError` is
not raised only for unknown ensembles, and the function does not return the
concatenation on this in-domain input. -/
theorem C8_counterexample :
    combine_log_files ⟨0, 0, fun _ _ => []⟩ "npt"
        "mdcomputeThermodynamicQuantitiesvolume"
      = .error (.numpyValueError
          "need at least one array to concatenate") := rfl

/-- C8 (amended): `combine_log_files(job, ensemble, value)` raises
`ValueError` if and only if `ensemble` is neither `"npt"` nor `"nvt"` or
the selected run counter (`job.doc.npt_runs` resp. `job.doc.nvt_runs`) is
zero — in the latter case from `np.concatenate` on no arrays; for
`ensemble ∈ {"npt", "nvt"}` with at least one run it returns the
concatenation of the `value` columns of `log-<ensemble>0.txt` …
`log-<ensemble>(n_runs-1).txt` in increasing run-index order. -/
theorem C8_amended_combine_log_files (job : UtilsJob)
    (ensemble value : String) :
    ((∃ x, combine_log_files job ensemble value = .error x) ↔
      (¬(ensemble = "npt" ∨ ensemble = "nvt")
        ∨ (ensemble = "npt" ∧ job.npt_runs = 0)
        ∨ (ensemble = "nvt" ∧ job.nvt_runs = 0)))
    ∧ (1 ≤ job.npt_runs → combine_log_files job "npt" value =
        .ok (((List.range job.npt_runs).map
          (fun i => job.logs ("log-npt" ++ toString i ++ ".txt")
            value)).flatten))
    ∧ (1 ≤ job.nvt_runs → combine_log_files job "nvt" value =
        .ok (((List.range job.nvt_runs).map
          (fun i => job.logs ("log-nvt" ++ toString i ++ ".txt")
            value)).flatten)) := by
  refine ⟨⟨?_, ?_⟩, ?_, ?_⟩
  · rintro ⟨x, hx⟩
    by_cases h1 : ensemble = "npt"
    · subst h1
      refine Or.inr (Or.inl ⟨rfl, ?_⟩)
      by_contra hz
      have hpos : 1 ≤ job.npt_runs := Nat.one_le_iff_ne_zero.2 hz
      rw [combine_npt_ok job value hpos] at hx
      exact Except.noConfusion hx
    · by_cases h2 : ensemble = "nvt"
      · subst h2
        refine Or.inr (Or.inr ⟨rfl, ?_⟩)
        by_contra hz
        have hpos : 1 ≤ job.nvt_runs := Nat.one_le_iff_ne_zero.2 hz
        rw [combine_nvt_ok job value hpos] at hx
        exact Except.noConfusion hx
      · left
        rintro (hc | hc)
        · exact h1 hc
        · exact h2 hc
  · rintro (h | ⟨h1, h0⟩ | ⟨h1, h0⟩)
    · obtain ⟨hn1, hn2⟩ := not_or.1 h
      refine ⟨.raisedValueError ("Unknown ensemble " ++ ensemble), ?_⟩
      unfold combine_log_files
      rw [if_neg hn1, if_neg hn2]
    · subst h1
      exact ⟨_, combine_npt_err job value h0⟩
    · subst h1
      exact ⟨_, combine_nvt_err job value h0⟩
  · intro h
    rw [combine_npt_ok job value h]
    rfl
  · intro h
    rw [combine_nvt_ok job value h]
    rfl

/-- Witness for the amended C8: one run returns the concatenation, zero
runs raise the `np.concatenate` `ValueError`. -/
theorem C8_amended_combine_log_files_witness :
    (1 : ℕ) ≤ 1
    ∧ combine_log_files ⟨1, 1, fun _ _ => []⟩ "npt" "volume" = .ok []
    ∧ (∃ x, combine_log_files ⟨0, 0, fun _ _ => []⟩ "npt" "volume"
        = .error x) :=
  ⟨Nat.le_refl 1,
   ((C8_amended_combine_log_files ⟨1, 1, fun _ _ => []⟩ "npt"
      "volume").2.1 (Nat.le_refl 1)).trans rfl,
   (C8_amended_combine_log_files ⟨0, 0, fun _ _ => []⟩ "npt"
      "volume").1.2 (Or.inr (Or.inl ⟨rfl, rfl⟩))⟩

/-- C9: `check_npt_equilibration` returns True iff both the NPT volume and
NPT potential-energy series, truncated at `sample_idx`, pass
`is_equilibrated` with `threshold_fraction=0.15`, `threshold_neff=200`;
whenever it returns True, the potential-energy check alone also passes; and
`check_nvt_equilibration` depends only on the NVT potential-energy column —
it is the `is_equilibrated` verdict on that series whenever the log
retrieval returns (one or more NVT runs), and it never reads the volume. -/
theorem C9_check_equilibration (isEq : List ℚ → ℚ → ℕ → Bool)
    (job : UtilsJob) (sample_idx : ℕ) :
    (∀ b, check_npt_equilibration isEq job sample_idx = .ok b →
      (b = true ↔
        isEq ((nptVolumeSeries job).drop sample_idx) (15/100) 200 = true
        ∧ isEq ((nptEnergySeries job).drop sample_idx) (15/100) 200
            = true))
    ∧ (check_npt_equilibration isEq job sample_idx = .ok true →
        isEq ((nptEnergySeries job).drop sample_idx) (15/100) 200 = true)
    ∧ check_nvt_equilibration isEq job sample_idx
        = (combine_log_files job "nvt"
            "mdcomputeThermodynamicQuantitiespotential_energy").bind
          (fun pe => .ok (isEq (pe.drop sample_idx) (15/100) 200))
    ∧ (1 ≤ job.nvt_runs → check_nvt_equilibration isEq job sample_idx
        = .ok (isEq ((nvtEnergySeries job).drop sample_idx) (15/100) 200))
    := by
  have hchar : ∀ b, check_npt_equilibration isEq job sample_idx = .ok b →
      b = ((isEq ((nptVolumeSeries job).drop sample_idx) (15/100) 200)
          && ((isEq ((nptEnergySeries job).drop sample_idx) (15/100) 200)
            && true)) := by
    intro b hb
    rcases Nat.eq_zero_or_pos job.npt_runs with h0 | hpos
    · have herr : check_npt_equilibration isEq job sample_idx
          = .error (.numpyValueError
              "need at least one array to concatenate") := by
        unfold check_npt_equilibration
        rw [combine_npt_err job _ h0]
        rfl
      rw [herr] at hb
      exact Except.noConfusion hb
    · have h1 := combine_npt_ok job
        "mdcomputeThermodynamicQuantitiesvolume" hpos
      have h2 := combine_npt_ok job
        "mdcomputeThermodynamicQuantitiespotential_energy" hpos
      have hok : check_npt_equilibration isEq job sample_idx
          = .ok ((isEq ((nptVolumeSeries job).drop sample_idx) (15/100)
                200)
              && ((isEq ((nptEnergySeries job).drop sample_idx) (15/100)
                200) && true)) := by
        unfold check_npt_equilibration
        simp only [h1, h2]
        rfl
      rw [hok] at hb
      exact (Except.ok.inj hb).symm
  refine ⟨?_, ?_, rfl, ?_⟩
  · intro b hb
    have hb' := hchar b hb
    subst hb'
    rw [Bool.and_true]
    exact iff_of_eq (Bool.and_eq_true _ _)
  · intro h
    have h' := (hchar true h).symm
    rw [Bool.and_true, Bool.and_eq_true] at h'
    exact h'.2
  · intro h
    have h3 : check_nvt_equilibration isEq job sample_idx
        = (combine_log_files job "nvt"
            "mdcomputeThermodynamicQuantitiespotential_energy").bind
          (fun pe => .ok (isEq (pe.drop sample_idx) (15/100) 200)) := rfl
    rw [h3, combine_nvt_ok job
      "mdcomputeThermodynamicQuantitiespotential_energy" h]
    rfl

/-- Witness for C9 at one run per ensemble and a trivially-true
equilibration test. -/
theorem C9_check_equilibration_witness :
    check_npt_equilibration (fun _ _ _ => true) ⟨1, 1, fun _ _ => []⟩ 0
      = .ok true
    ∧ (fun (_ : List ℚ) (_ : ℚ) (_ : ℕ) => true)
        ((nptEnergySeries ⟨1, 1, fun _ _ => []⟩).drop 0) (15/100) 200
      = true
    ∧ (1 : ℕ) ≤ 1
    ∧ check_nvt_equilibration (fun _ _ _ => true) ⟨1, 1, fun _ _ => []⟩ 0
      = .ok true :=
  ⟨rfl,
   (C9_check_equilibration (fun _ _ _ => true) ⟨1, 1, fun _ _ => []⟩
      0).2.1 rfl,
   Nat.le_refl 1,
   ((C9_check_equilibration (fun _ _ _ => true) ⟨1, 1, fun _ _ => []⟩
      0).2.2.2 (Nat.le_refl 1)).trans rfl⟩

/-- C5 counterexample: repository code does construct and raise an exception
of its own — `combine_log_files` raises
`ValueError(f"Unknown ensemble {ensemble}")` for an unknown ensemble, an
exception that originates neither from an external library call nor from a
malformed parameter dictionary. -/
theorem C5_counterexample :
    combine_log_files ⟨0, 0, fun _ _ => []⟩ "foo" "volume"
      = .error (.raisedValueError "Unknown ensemble foo") := rfl

/-- C5 (amended): the repository defines no custom exception classes, and
the only exception its own code constructs and raises is the builtin
`ValueError` for an unknown ensemble in `combine_log_files` — every error
of that provenance carries exactly that message; the only other error the
function lets escape is the `ValueError` propagated from the external
`np.concatenate` call. -/
theorem C5_amended_only_value_error (job : UtilsJob)
    (ensemble value : String) :
    (∀ msg, combine_log_files job ensemble value
        = .error (.raisedValueError msg) →
      msg = "Unknown ensemble " ++ ensemble)
    ∧ (∀ x, combine_log_files job ensemble value = .error x →
      x = .raisedValueError ("Unknown ensemble " ++ ensemble)
      ∨ x = .numpyValueError "need at least one array to concatenate") := by
  constructor
  · intro msg h
    unfold combine_log_files at h
    split at h
    · exact absurd (npConcatenate_error _ _ h) (by simp)
    · split at h
      · exact absurd (npConcatenate_error _ _ h) (by simp)
      · exact (UtilsErr.raisedValueError.inj (Except.error.inj h)).symm
  · intro x h
    unfold combine_log_files at h
    split at h
    · exact Or.inr (npConcatenate_error _ _ h)
    · split at h
      · exact Or.inr (npConcatenate_error _ _ h)
      · exact Or.inl (Except.error.inj h).symm

/-- Witness for the amended C5 at a concrete unknown ensemble. -/
theorem C5_amended_only_value_error_witness :
    combine_log_files ⟨0, 0, fun _ _ => []⟩ "abc" "v"
      = .error (.raisedValueError "Unknown ensemble abc")
    ∧ ("Unknown ensemble abc" : String) = "Unknown ensemble " ++ "abc" :=
  ⟨rfl, (C5_amended_only_value_error ⟨0, 0, fun _ _ => []⟩ "abc" "v").1
    "Unknown ensemble abc" rfl⟩

/-- The state-point fields of a job that
`notebooks/utils.py:check_job_for_log_equilibrium` reads. -/
structure NotebookSp where
  log_write_freq : ℚ
  gsd_write_freq : ℚ

/-- The job-document fields that `check_job_for_log_equilibrium` reads
(`runs`) and writes (all the `Option` fields; `none` means the key is not
present in the document). -/
structure NotebookDoc where
  runs : ℕ
  equilibrated : Option Bool
  log_equil_start : Option ℤ
  equil_step_start : Option ℤ
  log_equil_Neff : Option ℤ
  equil_log_stride : Option ℤ
  equil_step_stride : Option ℤ
  equil_gsd_stride : Option ℤ
  equil_gsd_start : Option ℤ
deriving DecidableEq, Repr

/-- Python `int(x)`: truncation toward zero. -/
def pyInt (q : ℚ) : ℤ := if q < 0 then -(Int.floor (-q)) else Int.floor q

/-- `check_job_for_log_equilibrium` of `notebooks/utils.py`.
`equilSample` models the external `cmeutils.sampling.equil_sample`
returning `(uncorr_sample, uncorr_indices, prod_start, Neff)`, with `none`
modelling it raising `ValueError`; `logData` models the column
`np.genfromtxt(job.fn(f"log{job.doc.runs - 1}.txt"), names=True)[value]`.
The Python defaults are `threshold_fraction=0.25`, `threshold_neff=50`.
`Except.ok` is a normal return; `Except.error` is the uncaught `IndexError`
raised by `uncorr_indices[1]` when fewer than two uncorrelated indices come
back, carrying the document as mutated up to that point.  A `//` between an
integer and a float in Python is `floor` of the true quotient, and `int()`
of that floor is the floor itself, hence the `Int.floor` of the division in
the `equil_gsd_stride` / `equil_gsd_start` branches. -/
def check_job_for_log_equilibrium
    (equilSample : List ℚ → ℚ → ℚ → Option (List ℚ × List ℚ × ℚ × ℚ))
    (sp : NotebookSp) (doc : NotebookDoc) (logData : List ℚ)
    (trim_cut : ℕ) (threshold_fraction threshold_neff : ℚ) :
    Except NotebookDoc NotebookDoc :=
  match equilSample (logData.drop trim_cut) threshold_fraction
      threshold_neff with
  | none => .ok doc
  | some (_, uncorr_indices, prod_start, neff) =>
    let d1 := { doc with equilibrated := some true }
    let log_equil_start : ℤ := pyInt ((trim_cut : ℚ) + prod_start)
    let d2 := { d1 with log_equil_start := some log_equil_start }
    let equil_step_start : ℤ :=
      pyInt ((log_equil_start : ℚ) * sp.log_write_freq)
    let d3 := { d2 with equil_step_start := some equil_step_start }
    let d4 := { d3 with log_equil_Neff := some (pyInt neff) }
    match uncorr_indices with
    | i0 :: i1 :: _ =>
      let equil_log_stride : ℤ := pyInt (i1 - i0)
      let d5 := { d4 with equil_log_stride := some equil_log_stride }
      let equil_step_stride : ℤ :=
        pyInt ((equil_log_stride : ℚ) * sp.log_write_freq)
      let d6 := { d5 with equil_step_stride := some equil_step_stride }
      let equil_gsd_stride : ℤ :=
        if (equil_step_stride : ℚ) > sp.gsd_write_freq then
          Int.floor ((equil_step_stride : ℚ) / sp.gsd_write_freq)
        else 1
      let d7 := { d6 with equil_gsd_stride := some equil_gsd_stride }
      let equil_gsd_start : ℤ :=
        if (equil_step_start : ℚ) > sp.gsd_write_freq then
          Int.floor ((equil_step_start : ℚ) / sp.gsd_write_freq)
        else 1
      .ok { d7 with equil_gsd_start := some equil_gsd_start }
    | _ => .error d4

/-- C10: if `equil_sample` raises `ValueError`, the function catches it and
returns with the job document completely unchanged (so `equilibrated` is in
particular never set to `False`); if `equil_sample` succeeds and the
function returns normally, `job.doc.equilibrated` is `True` and the derived
fields `equil_gsd_stride` and `equil_gsd_start` are integers `≥ 1` (the
state point's `gsd_write_freq`, a simulation write frequency, is
positive). -/
theorem C10_check_job_for_log_equilibrium
    (equilSample : List ℚ → ℚ → ℚ → Option (List ℚ × List ℚ × ℚ × ℚ))
    (sp : NotebookSp) (doc : NotebookDoc) (logData : List ℚ)
    (trim_cut : ℕ) (tf tneff : ℚ) (hfreq : 0 < sp.gsd_write_freq) :
    (equilSample (logData.drop trim_cut) tf tneff = none →
      check_job_for_log_equilibrium equilSample sp doc logData trim_cut tf
        tneff = .ok doc)
    ∧ (∀ d', equilSample (logData.drop trim_cut) tf tneff ≠ none →
        check_job_for_log_equilibrium equilSample sp doc logData trim_cut tf
          tneff = .ok d' →
        d'.equilibrated = some true
        ∧ (∃ a : ℤ, d'.equil_gsd_stride = some a ∧ 1 ≤ a)
        ∧ (∃ b : ℤ, d'.equil_gsd_start = some b ∧ 1 ≤ b)) := by
  constructor
  · intro hnone
    unfold check_job_for_log_equilibrium
    rw [hnone]
  · intro d' hne hok
    unfold check_job_for_log_equilibrium at hok
    rcases hs : equilSample (logData.drop trim_cut) tf tneff with _ |
      ⟨us, ui, prod_start, neff⟩
    · exact absurd hs hne
    · rw [hs] at hok
      match ui with
      | [] => exact Except.noConfusion hok
      | [i0] => exact Except.noConfusion hok
      | i0 :: i1 :: rest =>
        have hd := Except.ok.inj hok
        subst hd
        refine ⟨rfl, ⟨_, rfl, ?_⟩, ⟨_, rfl, ?_⟩⟩
        · split
          · rename_i hc
            refine Int.le_floor.2 ?_
            rw [Int.cast_one, le_div_iff₀ hfreq, one_mul]
            exact le_of_lt hc
          · exact le_refl 1
        · split
          · rename_i hc
            refine Int.le_floor.2 ?_
            rw [Int.cast_one, le_div_iff₀ hfreq, one_mul]
            exact le_of_lt hc
          · exact le_refl 1

/-- An initial notebook job document with no keys set. -/
def docZero : NotebookDoc :=
  ⟨0, none, none, none, none, none, none, none, none⟩

/-- Witness for C10 at a concrete successful `equil_sample` outcome. -/
theorem C10_check_job_for_log_equilibrium_witness :
    (0:ℚ) < 5
    ∧ ∃ d', check_job_for_log_equilibrium
        (fun _ _ _ => some ([], [0, 1], 0, 100)) ⟨1, 5⟩ docZero [] 0
          (25/100) 50 = .ok d'
      ∧ d'.equilibrated = some true
      ∧ (∃ a : ℤ, d'.equil_gsd_stride = some a ∧ 1 ≤ a)
      ∧ (∃ b : ℤ, d'.equil_gsd_start = some b ∧ 1 ≤ b) := by
  refine ⟨by norm_num, ⟨_, rfl, ?_⟩⟩
  exact (C10_check_job_for_log_equilibrium
    (fun _ _ _ => some ([], [0, 1], 0, 100)) ⟨1, 5⟩ docZero [] 0
    (25/100) 50 (by norm_num)).2 _ (by simp) rfl

/-- One elementary event of a Python statement, in evaluation order:
evaluating a bare name, accessing an attribute of `job`, accessing a key of
`job.sp`, binding a name (assignment target, loop variable or import),
writing a job-document key, or calling into an external library. -/
inductive PyEvent where
  | useName (n : String)
  | useJobAttr (a : String)
  | useSpKey (k : String)
  | bindName (n : String)
  | docWrite (k : String) (v : PVal)
  | extCall (f : String)
deriving DecidableEq, Repr

/-- A Python runtime error relevant to these scripts. -/
inductive PyErr where
  | nameError (n : String)
  | attrError (a : String)
  | spKeyError (k : String)
deriving DecidableEq, Repr

/-- The interpreter state: the names currently in scope and the job
document. -/
structure PyState where
  scope : List String
  doc : List (String × PVal)
deriving Repr

/-- The attributes a signac job object has (accessing any other attribute,
such as the `job.so` typo, raises `AttributeError`). -/
def jobAttrs : List String := ["id", "sp", "doc", "fn", "ws", "path", "init"]

/-- Python dict assignment `d[k] = v`: replace the value of `k` if present,
append otherwise. -/
def docSet (k : String) (v : PVal) : List (String × PVal) →
    List (String × PVal)
  | [] => [(k, v)]
  | kv :: rest => if kv.1 == k then (k, v) :: rest else kv :: docSet k v rest

/-- Execute one event: a name lookup fails when the name is not in scope, a
`job.<attr>` access fails when the attribute does not exist, a `job.sp.<k>`
access fails when the state point has no key `k`. -/
def stepEvent (spKeys : List String) (st : PyState) :
    PyEvent → Except PyErr PyState
  | .useName n =>
    if st.scope.contains n then .ok st else .error (.nameError n)
  | .useJobAttr a =>
    if jobAttrs.contains a then .ok st else .error (.attrError a)
  | .useSpKey k =>
    if spKeys.contains k then .ok st else .error (.spKeyError k)
  | .bindName n => .ok { st with scope := st.scope ++ [n] }
  | .docWrite k v => .ok { st with doc := docSet k v st.doc }
  | .extCall _ => .ok st

/-- Execute a list of events in order, stopping at the first error; the
result is the state reached together with the error, if any. -/
def runEvents (spKeys : List String) (st : PyState) :
    List PyEvent → PyState × Option PyErr
  | [] => (st, none)
  | e :: es =>
    match stepEvent spKeys st e with
    | .ok st' => runEvents spKeys st' es
    | .error err => (st, some err)

/-- The names a list of events binds, in order. -/
def bindsOf (T : List PyEvent) : List String :=
  T.filterMap (fun e => match e with | .bindName n => some n | _ => none)

/-- Does this event write document key `k`? -/
def writesKey (k : String) : PyEvent → Bool
  | .docWrite k' _ => k' == k
  | _ => false

lemma runEvents_append (spKeys : List String) (A B : List PyEvent) :
    ∀ (st : PyState),
      runEvents spKeys st (A ++ B) =
        match runEvents spKeys st A with
        | (st', none) => runEvents spKeys st' B
        | (st', some e) => (st', some e) := by
  induction A with
  | nil => intro st; rfl
  | cons e es ih =>
    intro st
    simp only [List.cons_append, runEvents]
    cases stepEvent spKeys st e with
    | ok st' => exact ih st'
    | error err => rfl

lemma docSet_lookup_self (k : String) (v : PVal) :
    ∀ (d : List (String × PVal)), (docSet k v d).lookup k = some v := by
  intro d
  induction d with
  | nil => simp [docSet, List.lookup]
  | cons kv rest ih =>
    by_cases h : (kv.1 == k) = true
    · simp [docSet, h, List.lookup]
    · have h' : (k == kv.1) = false := by
        rw [Bool.eq_false_iff]
        intro hc
        exact h (beq_iff_eq.2 (beq_iff_eq.1 hc).symm)
      simp only [docSet, h, if_false, List.lookup, h']
      exact ih

lemma docSet_lookup_ne (k k' : String) (v : PVal) (hne : k' ≠ k) :
    ∀ (d : List (String × PVal)),
      (docSet k' v d).lookup k = d.lookup k := by
  intro d
  induction d with
  | nil =>
    have h' : (k == k') = false := by
      rw [Bool.eq_false_iff]
      intro hc
      exact hne (beq_iff_eq.1 hc).symm
    simp [docSet, List.lookup, h']
  | cons kv rest ih =>
    by_cases h : (kv.1 == k') = true
    · have hk : (k == k') = false := by
        rw [Bool.eq_false_iff]
        intro hc
        exact hne (beq_iff_eq.1 hc).symm
      have hkv : (k == kv.1) = false := by
        rw [Bool.eq_false_iff]
        intro hc
        exact hne ((beq_iff_eq.1 hc).trans (beq_iff_eq.1 h)).symm
      simp [docSet, h, List.lookup, hk, hkv]
    · simp only [docSet, h, if_false, List.lookup]
      cases hkk : (k == kv.1) <;> simp [ih]

lemma runEvents_doc_lookup (spKeys : List String) (k : String) :
    ∀ (T : List PyEvent) (st : PyState),
      (∀ e ∈ T, writesKey k e = false) →
      ((runEvents spKeys st T).1.doc.lookup k) = st.doc.lookup k := by
  intro T
  induction T with
  | nil => intro st _; rfl
  | cons e es ih =>
    intro st hT
    have hes : ∀ e' ∈ es, writesKey k e' = false :=
      fun e' h' => hT e' (List.mem_cons_of_mem _ h')
    cases e with
    | useName n =>
      show ((match stepEvent spKeys st (.useName n) with
        | .ok st' => runEvents spKeys st' es
        | .error err => (st, some err)).1.doc.lookup k) = st.doc.lookup k
      by_cases hc : st.scope.contains n = true
      · simp only [stepEvent, hc, if_true]
        exact ih st hes
      · simp only [stepEvent, if_neg hc]
    | useJobAttr a =>
      show ((match stepEvent spKeys st (.useJobAttr a) with
        | .ok st' => runEvents spKeys st' es
        | .error err => (st, some err)).1.doc.lookup k) = st.doc.lookup k
      by_cases hc : jobAttrs.contains a = true
      · simp only [stepEvent, hc, if_true]
        exact ih st hes
      · simp only [stepEvent, if_neg hc]
    | useSpKey key =>
      show ((match stepEvent spKeys st (.useSpKey key) with
        | .ok st' => runEvents spKeys st' es
        | .error err => (st, some err)).1.doc.lookup k) = st.doc.lookup k
      by_cases hc : spKeys.contains key = true
      · simp only [stepEvent, hc, if_true]
        exact ih st hes
      · simp only [stepEvent, if_neg hc]
    | bindName n =>
      exact ih _ hes
    | docWrite k' v =>
      have hne : k' ≠ k := by
        have := hT (.docWrite k' v) (List.mem_cons_self _ _)
        simp only [writesKey] at this
        exact fun hc => by rw [hc] at this; simp at this
      exact (ih _ hes).trans (docSet_lookup_ne k k' v hne st.doc)
    | extCall f =>
      exact ih st hes

lemma runEvents_scope (spKeys : List String) :
    ∀ (T : List PyEvent) (st : PyState),
      (runEvents spKeys st T).2 = none →
      (runEvents spKeys st T).1.scope = st.scope ++ bindsOf T := by
  intro T
  induction T with
  | nil => intro st _; simp [runEvents, bindsOf]
  | cons e es ih =>
    intro st hnone
    cases e with
    | useName n =>
      by_cases hc : st.scope.contains n = true
      · have hred : runEvents spKeys st (.useName n :: es)
            = runEvents spKeys st es := by
          simp only [runEvents, stepEvent, hc, if_true]
        rw [hred] at hnone ⊢
        exact (ih st hnone).trans rfl
      · have hred : runEvents spKeys st (.useName n :: es)
            = (st, some (.nameError n)) := by
          simp only [runEvents, stepEvent, if_neg hc]
        rw [hred] at hnone
        exact Option.noConfusion hnone
    | useJobAttr a =>
      by_cases hc : jobAttrs.contains a = true
      · have hred : runEvents spKeys st (.useJobAttr a :: es)
            = runEvents spKeys st es := by
          simp only [runEvents, stepEvent, hc, if_true]
        rw [hred] at hnone ⊢
        exact (ih st hnone).trans rfl
      · have hred : runEvents spKeys st (.useJobAttr a :: es)
            = (st, some (.attrError a)) := by
          simp only [runEvents, stepEvent, if_neg hc]
        rw [hred] at hnone
        exact Option.noConfusion hnone
    | useSpKey key =>
      by_cases hc : spKeys.contains key = true
      · have hred : runEvents spKeys st (.useSpKey key :: es)
            = runEvents spKeys st es := by
          simp only [runEvents, stepEvent, hc, if_true]
        rw [hred] at hnone ⊢
        exact (ih st hnone).trans rfl
      · have hred : runEvents spKeys st (.useSpKey key :: es)
            = (st, some (.spKeyError key)) := by
          simp only [runEvents, stepEvent, if_neg hc]
        rw [hred] at hnone
        exact Option.noConfusion hnone
    | bindName n =>
      have hnone' : (runEvents spKeys
          { st with scope := st.scope ++ [n] } es).2 = none := hnone
      have := ih { st with scope := st.scope ++ [n] } hnone'
      rw [show (runEvents spKeys st (.bindName n :: es))
          = runEvents spKeys { st with scope := st.scope ++ [n] } es
          from rfl]
      rw [this]
      rw [List.append_assoc]
      rfl
    | docWrite k' v =>
      have hnone' : (runEvents spKeys
          { st with doc := docSet k' v st.doc } es).2 = none := hnone
      have := ih { st with doc := docSet k' v st.doc } hnone'
      rw [show (runEvents spKeys st (.docWrite k' v :: es))
          = runEvents spKeys { st with doc := docSet k' v st.doc } es
          from rfl]
      rw [this]
      rfl
    | extCall f =>
      exact (ih st hnone).trans rfl

lemma contains_eq_false_of_not_mem {l : List String} {x : String}
    (h : x ∉ l) : l.contains x = false := by
  rw [Bool.eq_false_iff]
  intro hc
  exact h (List.mem_of_elem_eq_true hc)

/-- If execution reaches a `useName x` event with `x` bound neither
initially nor by any earlier event, it halts with an error there or
earlier, and any document key that no earlier event writes keeps its
value. -/
lemma run_halts_at_unbound (spKeys : List String) (x k : String)
    (R S : List PyEvent) (st : PyState)
    (hx : x ∉ st.scope ++ bindsOf R)
    (hR : ∀ e ∈ R, writesKey k e = false) :
    ((runEvents spKeys st (R ++ .useName x :: S)).2).isSome = true
    ∧ ((runEvents spKeys st (R ++ .useName x :: S)).1.doc.lookup k)
        = st.doc.lookup k := by
  rw [runEvents_append]
  rcases hrun : runEvents spKeys st R with ⟨st', e?⟩
  have hdoc : st'.doc.lookup k = st.doc.lookup k := by
    have := runEvents_doc_lookup spKeys k R st hR
    rw [hrun] at this
    exact this
  cases e? with
  | some err => exact ⟨rfl, hdoc⟩
  | none =>
    have hscope : st'.scope = st.scope ++ bindsOf R := by
      have := runEvents_scope spKeys R st (by rw [hrun])
      rw [hrun] at this
      exact this
    have hcontains : st'.scope.contains x = false := by
      rw [hscope]
      exact contains_eq_false_of_not_mem hx
    simp only [runEvents, stepEvent, hcontains, Bool.false_eq_true,
      if_false]
    exact ⟨rfl, hdoc⟩

lemma bindsOf_append (A B : List PyEvent) :
    bindsOf (A ++ B) = bindsOf A ++ bindsOf B := by
  simp [bindsOf, List.filterMap_append]

lemma mem_bindsOf_flatMap {x : String} {n : ℕ} {body : List PyEvent}
    (h : x ∈ bindsOf ((List.range n).flatMap fun _ => body)) :
    x ∈ bindsOf body := by
  unfold bindsOf at *
  rcases List.mem_filterMap.1 h with ⟨e, he, hval⟩
  rcases List.mem_flatMap.1 he with ⟨i, _, hb⟩
  exact List.mem_filterMap.2 ⟨e, hb, hval⟩

lemma notWrites_flatMap {k : String} {n : ℕ} {body : List PyEvent}
    (h : ∀ e ∈ body, writesKey k e = false) :
    ∀ e ∈ (List.range n).flatMap (fun _ => body), writesKey k e = false := by
  intro e he
  rcases List.mem_flatMap.1 he with ⟨i, _, hb⟩
  exact h e hb

/-- The names in scope inside `optimize` of `msibi-flow/pair-flow/project.py`
before its body runs: the function parameter `job`, the builtins the body
uses, and the module-level imports and definitions. -/
def pairFlowScope : List String :=
  ["job", "print", "enumerate", "zip", "open", "range",
   "os", "signac", "FlowProject", "directives", "DefaultSlurmEnvironment",
   "AngleMSIBI", "Borah", "Fry", "completed", "get_file", "optimize"]

/-- `optimize` (pair-flow), lines 61–67: the function-level imports
(`from msibi import MSIBI, State, Bond, Angle`, `import hoomd`, `import os`,
`import numpy as np`), entering `with job:`, and `job.doc["done"] = False`.
Document writes of values computed by external libraries carry an opaque
`.str` marker naming the source expression; literal values (flags, counts)
are embedded as literals. -/
def pairFlowHead : List PyEvent :=
  [.bindName "MSIBI", .bindName "State", .bindName "Bond", .bindName "Angle",
   .bindName "hoomd", .bindName "os", .bindName "np",
   .useName "job", .extCall "with job",
   .useName "job", .useJobAttr "doc", .docWrite "done" (.bool false)]

/-- `optimize` (pair-flow), lines 68–70: the `if os.path.exists(...)` block
(`sExists` is the branch taken). -/
def pairFlowIfStates (sExists : Bool) : List PyEvent :=
  [.useName "os", .useName "job", .useJobAttr "fn",
   .extCall "os.path.exists"]
  ++ (if sExists then
      [.useName "job", .useJobAttr "fn", .bindName "dir_path",
       .useName "os", .useName "dir_path", .extCall "os.system"]
    else [])

/-- `optimize` (pair-flow), lines 71–81: `opt = MSIBI(...)`. -/
def pairFlowMsibiCtor : List PyEvent :=
  [.useName "print",
   .useName "MSIBI",
   .useName "job", .useJobAttr "sp", .useSpKey "nlist",
   .useName "hoomd",
   .useName "hoomd",
   .useName "job", .useJobAttr "sp", .useSpKey "thermostat_tau",
   .useName "job", .useJobAttr "sp", .useSpKey "dt",
   .useName "job", .useJobAttr "sp", .useSpKey "n_steps",
   .useName "job", .useJobAttr "sp", .useSpKey "nlist_exclusions",
   .extCall "MSIBI", .bindName "opt"]

/-- `optimize` (pair-flow), lines 83–89: opening the single-chain target
project and job, recording `job.doc.target_state_path`, and the header of
`for idx, state in enumerate(job.sp.states):`. -/
def pairFlowStatesSetup : List PyEvent :=
  [.useName "print",
   .useName "signac", .useName "job", .useJobAttr "sp",
   .useSpKey "single_chain_path", .extCall "signac.get_project",
   .bindName "single_chain_project",
   .useName "single_chain_project", .useName "job", .useJobAttr "sp",
   .useSpKey "single_chain_job_id", .extCall "open_job",
   .bindName "single_chain_job",
   .useName "single_chain_job", .useName "job", .useJobAttr "doc",
   .docWrite "target_state_path" (.str "single_chain_job.path"),
   .useName "enumerate", .useName "job", .useJobAttr "sp",
   .useSpKey "states"]

/-- `optimize` (pair-flow), lines 90–99: one iteration of the states loop. -/
def pairFlowStateLoopBody : List PyEvent :=
  [.bindName "idx", .bindName "state",
   .useName "print", .useName "state",
   .useName "single_chain_job", .useName "state", .bindName "gsd_file",
   .useName "State",
   .useName "state",
   .useName "single_chain_job",
   .useName "gsd_file",
   .useName "state",
   .useName "job", .useJobAttr "sp", .useSpKey "state_alphas",
   .extCall "State", .bindName "state",
   .useName "opt", .useName "state", .extCall "opt.add_state"]

/-- `optimize` (pair-flow), lines 101–128: the bond and angle sections,
through `print("Creaing Pair objects...")`. -/
def pairFlowBondAngle : List PyEvent :=
  [.useName "print",
   .useName "signac", .useName "job", .useJobAttr "sp",
   .useSpKey "bond_project_path", .extCall "signac.get_project",
   .bindName "bond_project",
   .useName "bond_project", .useName "job", .useJobAttr "sp",
   .useSpKey "bond_job_id", .extCall "open_job", .bindName "bond_job",
   .useName "Bond",
   .useName "job", .useJobAttr "sp", .useSpKey "bonds",
   .useName "job", .useJobAttr "sp", .useSpKey "bonds",
   .extCall "Bond", .bindName "AA_bond",
   .useName "AA_bond", .useName "bond_job", .useName "job", .useJobAttr "sp",
   .useSpKey "bonds", .extCall "AA_bond.set_from_file",
   .useName "opt", .useName "AA_bond", .extCall "opt.add_force",
   .useName "print",
   .useName "signac", .useName "job", .useJobAttr "sp",
   .useSpKey "angle_project_path", .extCall "signac.get_project",
   .bindName "angle_project",
   .useName "angle_project", .useName "job", .useJobAttr "sp",
   .useSpKey "angle_job_id", .extCall "open_job", .bindName "angle_job",
   .useName "Angle",
   .useName "job", .useJobAttr "sp", .useSpKey "angles",
   .useName "job", .useJobAttr "sp", .useSpKey "angles",
   .useName "job", .useJobAttr "sp", .useSpKey "angles",
   .extCall "Angle", .bindName "AAA_angle",
   .useName "AAA_angle", .useName "angle_job", .useName "job",
   .useJobAttr "sp", .useSpKey "angles", .extCall "AAA_angle.set_from_file",
   .useName "opt", .useName "AAA_angle", .extCall "opt.add_force",
   .useName "print"]

/-- Everything of `optimize` (pair-flow) between `job.doc["done"] = False`
and the evaluation of the unbound name `Pair` at line 129 (`nStates` is the
length of `job.sp.states`). -/
def pairFlowSetup (sExists : Bool) (nStates : ℕ) : List PyEvent :=
  pairFlowIfStates sExists ++ pairFlowMsibiCtor ++ pairFlowStatesSetup
  ++ ((List.range nStates).flatMap fun _ => pairFlowStateLoopBody)
  ++ pairFlowBondAngle

/-- `optimize` (pair-flow), lines 129–137 after the `Pair` lookup: the rest
of the `AA_pair = Pair(type1=job.so.pairs[...], ...)` statement (note the
`job.so` typo) and `opt.add_force(AA_pair)`, then the header of the
optimization loop (lines 139–144). -/
def pairFlowPairStmtTail : List PyEvent :=
  [.useName "job", .useJobAttr "so",
   .useName "job", .useJobAttr "so",
   .useName "job", .useJobAttr "sp", .useSpKey "r_cut",
   .useName "job", .useJobAttr "sp", .useSpKey "nbins",
   .extCall "Pair", .bindName "AA_pair",
   .useName "opt", .useName "AA_pair", .extCall "opt.add_force",
   .useName "print",
   .useName "zip",
   .useName "job", .useJobAttr "sp", .useSpKey "n_iterations",
   .useName "job", .useJobAttr "sp", .useSpKey "n_steps",
   .useName "job", .useJobAttr "sp", .useSpKey "state_alphas"]

/-- `optimize` (pair-flow), lines 140–151: one iteration of the
optimization loop. -/
def pairFlowOptLoopBody : List PyEvent :=
  [.bindName "n_iterations", .bindName "n_steps", .bindName "alpha",
   .useName "state", .useName "alpha", .extCall "state.set_alpha",
   .useName "opt", .useName "n_steps", .useName "n_iterations",
   .extCall "opt.run_optimization",
   .useName "AA_pair", .extCall "AA_pair.smooth_potential"]

/-- `optimize` (pair-flow), lines 153–170: saving the optimized pair
potential, its history and the plots, and the header of the final states
loop. -/
def pairFlowSave : List PyEvent :=
  [.useName "AA_pair", .useName "job", .useJobAttr "fn", .useName "AA_pair",
   .extCall "AA_pair.save_potential",
   .useName "AA_pair", .useName "job", .useJobAttr "fn", .useName "AA_pair",
   .extCall "AA_pair.save_potential_history",
   .useName "AA_pair", .useName "job", .useJobAttr "fn", .useName "AA_pair",
   .useName "job", .useJobAttr "sp", .useSpKey "r_cut",
   .extCall "AA_pair.plot_potentials",
   .useName "AA_pair", .useName "job", .useJobAttr "fn", .useName "AA_pair",
   .useName "job", .useJobAttr "sp", .useSpKey "r_cut",
   .extCall "AA_pair.plot_potential_history",
   .useName "opt"]

/-- `optimize` (pair-flow), lines 170–194: one iteration of the final
per-state save/plot loop. -/
def pairFlowFinalLoopBody : List PyEvent :=
  [.bindName "state",
   .useName "AA_pair", .useName "state", .useName "job", .useJobAttr "fn",
   .useName "state", .useName "AA_pair", .extCall "AA_pair.save_state_data",
   .useName "AA_pair", .useName "state", .useName "job", .useJobAttr "fn",
   .useName "state", .useName "AA_pair",
   .extCall "AA_pair.plot_fit_scores",
   .useName "AA_pair", .useName "state", .useName "job", .useJobAttr "fn",
   .useName "state", .useName "AA_pair",
   .extCall "AA_pair.plot_target_distribution",
   .useName "AA_pair", .useName "state", .useName "job", .useJobAttr "fn",
   .useName "state", .useName "AA_pair",
   .extCall "AA_pair.plot_distribution_comparison"]

/-- `optimize` (pair-flow) after the `Pair` lookup: the rest of the body,
ending with `job.doc["done"] = True` (lines 196–197). -/
def pairFlowTail (nStates nOpt : ℕ) : List PyEvent :=
  pairFlowPairStmtTail
  ++ ((List.range nOpt).flatMap fun _ => pairFlowOptLoopBody)
  ++ pairFlowSave
  ++ ((List.range nStates).flatMap fun _ => pairFlowFinalLoopBody)
  ++ [.useName "print", .useName "job", .useJobAttr "doc",
      .docWrite "done" (.bool true)]

/-- The whole body of `optimize` of `msibi-flow/pair-flow/project.py`
(lines 60–197), as the sequence of events it executes. -/
def pairFlowOptimizeTrace (sExists : Bool) (nStates nOpt : ℕ) :
    List PyEvent :=
  pairFlowHead ++ pairFlowSetup sExists nStates
    ++ .useName "Pair" :: pairFlowTail nStates nOpt

/-- The scope of `pairFlowScope` extended by the names `pairFlowHead`
binds. -/
def pairFlowScopeAfterHead : List String :=
  pairFlowScope ++ ["MSIBI", "State", "Bond", "Angle", "hoomd", "os", "np"]

/-- The names in scope inside `run_npt` of
`training-runs/bulk-states/project.py` before its body runs. -/
def bulkProjectScope : List String :=
  ["job", "print", "open",
   "signac", "FlowProject", "directives", "DefaultSlurmEnvironment", "os",
   "MyProject", "Borah", "R2", "Fry", "sim_done", "sample_done",
   "run_npt", "sample_npt"]

/-- `run_npt` (bulk-states), lines 72–87: function-level imports, entering
`with job:`, the prints, `density = job.sp.state_points.get("density")` and
`temp = job.sp.state_points.get("kT")` (note the `state_points` key), and
the `job.doc.density` / `job.doc.reduced_temp` writes. -/
def bulkRunNptPart1 : List PyEvent :=
  [.bindName "unyt", .bindName "Unit", .bindName "hoomd_organics",
   .bindName "Pack", .bindName "PPS", .bindName "OPLS_AA_PPS",
   .bindName "Simulation",
   .useName "job", .extCall "with job",
   .useName "print", .useName "print",
   .useName "print", .useName "job", .useJobAttr "id",
   .useName "print",
   .useName "job", .useJobAttr "sp", .useSpKey "state_points",
   .bindName "density",
   .useName "job", .useJobAttr "sp", .useSpKey "state_points",
   .bindName "temp",
   .useName "density", .useName "job", .useJobAttr "doc",
   .docWrite "density" (.str "density"),
   .useName "temp", .useName "job", .useJobAttr "doc",
   .docWrite "reduced_temp" (.str "temp")]

/-- `run_npt` (bulk-states), lines 89–113: building and parametrising the
system, the reference-unit document writes, and the `dt` conditional (both
branches bind the same name, so they are one event). -/
def bulkRunNptPart2 : List PyEvent :=
  [.useName "PPS", .useName "job", .useJobAttr "sp", .useSpKey "num_mols",
   .useName "job", .useJobAttr "sp", .useSpKey "lengths",
   .extCall "PPS", .bindName "pps",
   .useName "Pack", .useName "pps", .useName "job", .useJobAttr "sp",
   .useSpKey "density", .extCall "Pack", .bindName "system",
   .useName "system", .useName "job", .useJobAttr "sp", .useSpKey "r_cut",
   .useName "job", .useJobAttr "sp", .useSpKey "remove_hydrogens",
   .useName "job", .useJobAttr "sp", .useSpKey "remove_charges",
   .useName "OPLS_AA_PPS", .extCall "system.apply_forcefield",
   .useName "system", .useName "job", .useJobAttr "doc",
   .docWrite "ref_mass" (.str "system.reference_mass"),
   .useName "job", .useJobAttr "doc",
   .docWrite "ref_mass_units" (.str "amu"),
   .useName "system", .useName "job", .useJobAttr "doc",
   .docWrite "ref_energy" (.str "system.reference_energy"),
   .useName "job", .useJobAttr "doc",
   .docWrite "ref_energy_units" (.str "kJ/mol"),
   .useName "system", .useName "job", .useJobAttr "sp",
   .useSpKey "sigma_scale", .useName "job", .useJobAttr "doc",
   .docWrite "ref_length" (.str "system.reference_length*sigma_scale"),
   .useName "job", .useJobAttr "doc",
   .docWrite "ref_length_units" (.str "nm"),
   .useName "job", .useJobAttr "sp", .useSpKey "remove_hydrogens",
   .bindName "dt",
   .useName "dt", .useName "job", .useJobAttr "doc",
   .docWrite "dt" (.str "dt")]

/-- `run_npt` (bulk-states), lines 115–134: the output paths, the
`Simulation.from_system` call, `tau_kT`/`tau_pressure`, and the document
writes including line 131, `job.doc.tau_kT = tau_kjob.doc.T`, whose first
event evaluates the unbound name `tau_kjob`. -/
def bulkRunNptPart3 : List PyEvent :=
  [.useName "job", .useJobAttr "fn", .bindName "gsd_path",
   .useName "job", .useJobAttr "fn", .bindName "log_path",
   .useName "Simulation", .useName "system",
   .useName "job", .useJobAttr "sp", .useSpKey "gsd_write_freq",
   .useName "gsd_path",
   .useName "job", .useJobAttr "sp", .useSpKey "log_write_freq",
   .useName "log_path",
   .useName "job", .useJobAttr "doc",
   .useName "job", .useJobAttr "sp", .useSpKey "sim_seed",
   .extCall "Simulation.from_system", .bindName "sim",
   .useName "sim", .useName "job", .useJobAttr "fn",
   .extCall "sim.pickle_forcefield",
   .useName "system", .useName "job", .useJobAttr "doc",
   .bindName "target_box",
   .useName "job", .useJobAttr "doc", .useName "job", .useJobAttr "sp",
   .useSpKey "tau_kT", .bindName "tau_kT",
   .useName "job", .useJobAttr "doc", .useName "job", .useJobAttr "sp",
   .useSpKey "tau_pressure", .bindName "tau_pressure",
   .useName "tau_kjob", .useName "job", .useJobAttr "doc",
   .docWrite "tau_kT" (.str "tau_kjob.doc.T"),
   .useName "tau_pressure", .useName "job", .useJobAttr "doc",
   .docWrite "tau_pressure" (.str "tau_pressure"),
   .useName "sim", .useName "job", .useJobAttr "doc",
   .docWrite "real_time_step" (.str "sim.real_timestep"),
   .useName "job", .useJobAttr "doc",
   .docWrite "real_time_units" (.str "fs")]

/-- `run_npt` (bulk-states), lines 137–178: the temperature ramp, the first
`run_update_volume`, a `run_NVT`, the compress and expand
`run_update_volume` calls, the final `run_NVT`, and `save_restart_gsd`. -/
def bulkRunNptPart4 : List PyEvent :=
  [.useName "print",
   .useName "sim", .useName "job", .useJobAttr "sp",
   .useSpKey "shrink_n_steps",
   .useName "job", .useJobAttr "sp", .useSpKey "shrink_kT",
   .useName "temp",
   .extCall "sim.temperature_ramp", .bindName "shrink_kT_ramp",
   .useName "sim", .useName "target_box",
   .useName "job", .useJobAttr "sp", .useSpKey "shrink_n_steps",
   .useName "job", .useJobAttr "sp", .useSpKey "shrink_period",
   .useName "tau_kT", .useName "temp",
   .extCall "sim.run_update_volume",
   .useName "sim", .useName "temp", .useName "tau_kT",
   .extCall "sim.run_NVT",
   .useName "sim", .useName "target_box", .useName "tau_kT",
   .useName "job", .useJobAttr "sp", .useSpKey "kT",
   .extCall "sim.run_update_volume",
   .useName "sim", .useName "target_box", .useName "tau_kT",
   .useName "job", .useJobAttr "sp", .useSpKey "kT",
   .extCall "sim.run_update_volume",
   .useName "print", .useName "print",
   .useName "sim", .useName "job", .useJobAttr "doc", .useName "temp",
   .useName "tau_kT", .extCall "sim.run_NVT",
   .useName "sim", .useName "job", .useJobAttr "fn",
   .extCall "sim.save_restart_gsd",
   .useName "print"]

/-- The whole body of `run_npt` of `training-runs/bulk-states/project.py`
(lines 71–178), as the sequence of events it executes. -/
def bulkRunNptTrace : List PyEvent :=
  bulkRunNptPart1 ++ bulkRunNptPart2 ++ bulkRunNptPart3 ++ bulkRunNptPart4

/-- `run_npt` (validation), lines 104–125: function-level imports, entering
`with job:`, the prints, building the system, and `apply_forcefield`. -/
def validationRunNptPart1 : List PyEvent :=
  [.bindName "unyt", .bindName "Unit", .bindName "jankflow",
   .bindName "Pack", .bindName "PPS", .bindName "OPLS_AA_PPS",
   .bindName "Simulation",
   .useName "job", .extCall "with job",
   .useName "print", .useName "print",
   .useName "print", .useName "job", .useJobAttr "id",
   .useName "print",
   .useName "PPS", .useName "job", .useJobAttr "sp", .useSpKey "num_mols",
   .useName "job", .useJobAttr "sp", .useSpKey "lengths",
   .extCall "PPS", .bindName "pps",
   .useName "Pack", .useName "pps", .useName "job", .useJobAttr "sp",
   .useSpKey "density", .extCall "Pack", .bindName "system",
   .useName "system", .useName "job", .useJobAttr "sp", .useSpKey "r_cut",
   .useName "job", .useJobAttr "sp", .useSpKey "remove_hydrogens",
   .useName "job", .useJobAttr "sp", .useSpKey "remove_charges",
   .useName "OPLS_AA_PPS", .extCall "system.apply_forcefield"]

/-- `run_npt` (validation), lines 126–146: the reference-unit document
writes, the `pressure` conditional (the branch shown is the one taken for
the only `sigma_scale` value the validation `init.py` creates, 0.955: both
conditions are evaluated, then `job.doc.pressure` is written), the `dt`
conditional (both branches bind the same name), and the output paths. -/
def validationRunNptPart2 : List PyEvent :=
  [.useName "system", .useName "job", .useJobAttr "doc",
   .docWrite "ref_mass" (.str "system.reference_mass"),
   .useName "job", .useJobAttr "doc",
   .docWrite "ref_mass_units" (.str "amu"),
   .useName "system", .useName "job", .useJobAttr "doc",
   .docWrite "ref_energy" (.str "system.reference_energy"),
   .useName "job", .useJobAttr "doc",
   .docWrite "ref_energy_units" (.str "kJ/mol"),
   .useName "system", .useName "job", .useJobAttr "sp",
   .useSpKey "sigma_scale", .useName "job", .useJobAttr "doc",
   .docWrite "ref_length" (.str "system.reference_length*sigma_scale"),
   .useName "job", .useJobAttr "doc",
   .docWrite "ref_length_units" (.str "nm"),
   .useName "job", .useJobAttr "sp", .useSpKey "sigma_scale",
   .useName "job", .useJobAttr "sp", .useSpKey "sigma_scale",
   .useName "job", .useJobAttr "doc",
   .docWrite "pressure" (.num 13933 10000000),
   .useName "job", .useJobAttr "sp", .useSpKey "remove_hydrogens",
   .bindName "dt",
   .useName "dt", .useName "job", .useJobAttr "doc",
   .docWrite "dt" (.str "dt"),
   .useName "job", .useJobAttr "fn", .useName "job", .useJobAttr "doc",
   .bindName "gsd_path",
   .useName "job", .useJobAttr "fn", .useName "job", .useJobAttr "doc",
   .bindName "log_path"]

/-- `run_npt` (validation), lines 148–167: `Simulation.from_system`, the
forcefield pickle, the reference-length scaling, `target_box`,
`tau_kT`/`tau_pressure`, and the unit document writes. -/
def validationRunNptPart3 : List PyEvent :=
  [.useName "Simulation", .useName "system",
   .useName "job", .useJobAttr "sp", .useSpKey "gsd_write_freq",
   .useName "gsd_path",
   .useName "job", .useJobAttr "sp", .useSpKey "log_write_freq",
   .useName "log_path",
   .useName "job", .useJobAttr "doc",
   .useName "job", .useJobAttr "sp", .useSpKey "sim_seed",
   .extCall "Simulation.from_system", .bindName "sim",
   .useName "sim", .useName "job", .useJobAttr "fn",
   .extCall "sim.pickle_forcefield",
   .useName "sim", .useName "job", .useJobAttr "sp",
   .useSpKey "sigma_scale", .extCall "sim.scale_reference_length",
   .useName "system", .useName "job", .useJobAttr "doc",
   .bindName "target_box",
   .useName "job", .useJobAttr "doc", .useName "job", .useJobAttr "sp",
   .useSpKey "tau_kT", .bindName "tau_kT",
   .useName "job", .useJobAttr "doc", .useName "job", .useJobAttr "sp",
   .useSpKey "tau_pressure", .bindName "tau_pressure",
   .useName "tau_kT", .useName "job", .useJobAttr "doc",
   .docWrite "tau_kT" (.str "tau_kT"),
   .useName "tau_pressure", .useName "job", .useJobAttr "doc",
   .docWrite "tau_pressure" (.str "tau_pressure"),
   .useName "sim", .useName "job", .useJobAttr "doc",
   .docWrite "real_time_step" (.str "sim.real_timestep"),
   .useName "job", .useJobAttr "doc",
   .docWrite "real_time_units" (.str "fs")]

/-- `run_npt` (validation), lines 170–210: the temperature ramp, the two
`run_update_volume` calls, `run_NVT`, `save_restart_gsd`, `run_NPT`, the
second `save_restart_gsd`, and `job.doc.npt_runs = 1`. -/
def validationRunNptPart4 : List PyEvent :=
  [.useName "print",
   .useName "sim", .useName "job", .useJobAttr "sp",
   .useSpKey "shrink_n_steps",
   .useName "job", .useJobAttr "sp", .useSpKey "shrink_kT",
   .useName "job", .useJobAttr "sp", .useSpKey "kT",
   .extCall "sim.temperature_ramp", .bindName "shrink_kT_ramp",
   .useName "sim", .useName "job", .useJobAttr "sp", .useSpKey "density",
   .useName "job", .useJobAttr "sp", .useSpKey "shrink_n_steps",
   .useName "job", .useJobAttr "sp", .useSpKey "shrink_period",
   .useName "tau_kT", .useName "shrink_kT_ramp",
   .extCall "sim.run_update_volume",
   .useName "sim", .useName "job", .useJobAttr "sp", .useSpKey "density",
   .useName "tau_kT", .useName "job", .useJobAttr "sp", .useSpKey "kT",
   .extCall "sim.run_update_volume",
   .useName "print", .useName "print",
   .useName "sim", .useName "job", .useJobAttr "sp", .useSpKey "kT",
   .useName "tau_kT", .extCall "sim.run_NVT",
   .useName "sim", .useName "job", .useJobAttr "fn",
   .extCall "sim.save_restart_gsd",
   .useName "print",
   .useName "sim", .useName "job", .useJobAttr "sp", .useSpKey "n_steps",
   .useName "job", .useJobAttr "sp", .useSpKey "kT",
   .useName "job", .useJobAttr "doc",
   .useName "tau_kT",
   .useName "job", .useJobAttr "doc",
   .useName "job", .useJobAttr "sp", .useSpKey "gamma",
   .extCall "sim.run_NPT",
   .useName "sim", .useName "job", .useJobAttr "fn",
   .extCall "sim.save_restart_gsd",
   .useName "job", .useJobAttr "doc", .docWrite "npt_runs" (.num 1 1),
   .useName "print"]

/-- The whole body of `run_npt` of `validation/project.py`
(lines 102–210), as the sequence of events it executes. -/
def validationRunNptTrace : List PyEvent :=
  validationRunNptPart1 ++ validationRunNptPart2 ++ validationRunNptPart3
    ++ validationRunNptPart4

lemma pair_not_in_if_binds (sExists : Bool) :
    "Pair" ∉ bindsOf (pairFlowIfStates sExists) := by
  unfold pairFlowIfStates
  rw [bindsOf_append]
  refine List.not_mem_append (by decide) ?_
  cases sExists <;> decide

lemma pair_not_in_setup_binds (sExists : Bool) (nStates : ℕ) :
    "Pair" ∉ bindsOf (pairFlowSetup sExists nStates) := by
  unfold pairFlowSetup
  rw [bindsOf_append, bindsOf_append, bindsOf_append, bindsOf_append]
  refine List.not_mem_append (List.not_mem_append (List.not_mem_append
    (List.not_mem_append ?_ ?_) ?_) ?_) ?_
  · exact pair_not_in_if_binds sExists
  · decide
  · decide
  · intro h; exact absurd (mem_bindsOf_flatMap h) (by decide)
  · decide

lemma pair_not_in_tail_binds (nStates nOpt : ℕ) :
    "Pair" ∉ bindsOf (pairFlowTail nStates nOpt) := by
  unfold pairFlowTail
  rw [bindsOf_append, bindsOf_append, bindsOf_append, bindsOf_append]
  refine List.not_mem_append (List.not_mem_append (List.not_mem_append
    (List.not_mem_append ?_ ?_) ?_) ?_) ?_
  · decide
  · intro h; exact absurd (mem_bindsOf_flatMap h) (by decide)
  · decide
  · intro h; exact absurd (mem_bindsOf_flatMap h) (by decide)
  · decide

lemma pair_setup_no_done_write (sExists : Bool) (nStates : ℕ) :
    ∀ e ∈ pairFlowSetup sExists nStates, writesKey "done" e = false := by
  unfold pairFlowSetup
  refine List.forall_mem_append.2 ⟨List.forall_mem_append.2
    ⟨List.forall_mem_append.2 ⟨List.forall_mem_append.2 ⟨?_, ?_⟩, ?_⟩,
      ?_⟩, ?_⟩
  · unfold pairFlowIfStates
    refine List.forall_mem_append.2 ⟨by decide, ?_⟩
    cases sExists <;> decide
  · decide
  · decide
  · exact notWrites_flatMap (by decide)
  · decide

/-- C2: evident typos left to raise at runtime.  Every execution of
`optimize` in `msibi-flow/pair-flow/project.py` halts with an error —
whatever the state-point keys, the initial job document, the
`os.path.exists` branch and the loop lengths — before the final
`job.doc["done"] = True` line, leaving `done` at the `False` written at the
top of the body; statically, the name `Pair` is bound nowhere in the
operation and `so` is not an attribute of a job.  In
`training-runs/bulk-states`, the state points created by `init.py` have no
key `state_points`, so `run_npt` halts at line 84 with that key error, and
the name `tau_kjob` (line 131) is bound nowhere in the operation. -/
theorem C2_script_typos :
    (∀ (spKeys : List String) (doc0 : List (String × PVal)) (sExists : Bool)
        (nStates nOpt : ℕ),
      ((runEvents spKeys ⟨pairFlowScope, doc0⟩
          (pairFlowOptimizeTrace sExists nStates nOpt)).2).isSome = true
      ∧ (runEvents spKeys ⟨pairFlowScope, doc0⟩
          (pairFlowOptimizeTrace sExists nStates nOpt)).1.doc.lookup "done"
          = some (.bool false))
    ∧ (∀ (sExists : Bool) (nStates nOpt : ℕ),
        "Pair" ∉ pairFlowScope
          ++ bindsOf (pairFlowOptimizeTrace sExists nStates nOpt))
    ∧ "so" ∉ jobAttrs
    ∧ "state_points" ∉ bulkStatesParamNames
    ∧ (runEvents bulkStatesParamNames ⟨bulkProjectScope, []⟩
        bulkRunNptTrace).2 = some (.spKeyError "state_points")
    ∧ "tau_kjob" ∉ bulkProjectScope ++ bindsOf bulkRunNptTrace := by
  refine ⟨?_, ?_, by decide, by decide, rfl, by decide⟩
  · intro spKeys doc0 sExists nStates nOpt
    have hhead : runEvents spKeys ⟨pairFlowScope, doc0⟩ pairFlowHead
        = (⟨pairFlowScopeAfterHead, docSet "done" (.bool false) doc0⟩,
           none) := rfl
    have hsplit : runEvents spKeys ⟨pairFlowScope, doc0⟩
        (pairFlowOptimizeTrace sExists nStates nOpt)
        = runEvents spKeys
            ⟨pairFlowScopeAfterHead, docSet "done" (.bool false) doc0⟩
            (pairFlowSetup sExists nStates
              ++ .useName "Pair" :: pairFlowTail nStates nOpt) := by
      unfold pairFlowOptimizeTrace
      rw [List.append_assoc, runEvents_append, hhead]
    have hx : "Pair" ∉ pairFlowScopeAfterHead
        ++ bindsOf (pairFlowSetup sExists nStates) :=
      List.not_mem_append (by decide)
        (pair_not_in_setup_binds sExists nStates)
    obtain ⟨h1, h2⟩ := run_halts_at_unbound spKeys "Pair" "done"
      (pairFlowSetup sExists nStates) (pairFlowTail nStates nOpt)
      ⟨pairFlowScopeAfterHead, docSet "done" (.bool false) doc0⟩
      hx (pair_setup_no_done_write sExists nStates)
    rw [hsplit]
    refine ⟨h1, ?_⟩
    rw [h2]
    exact docSet_lookup_self "done" (.bool false) doc0
  · intro sExists nStates nOpt
    refine List.not_mem_append (by decide) ?_
    unfold pairFlowOptimizeTrace
    rw [List.append_assoc, bindsOf_append, bindsOf_append]
    refine List.not_mem_append (by decide) (List.not_mem_append
      (pair_not_in_setup_binds sExists nStates) ?_)
    rw [show bindsOf (.useName "Pair" :: pairFlowTail nStates nOpt)
        = bindsOf (pairFlowTail nStates nOpt) from rfl]
    exact pair_not_in_tail_binds nStates nOpt

/-- Witness for C2: the pair-flow `optimize` run with the state-point keys
its own `init.py` creates, an empty starting document, no `states`
directory, one state and one optimization stage. -/
theorem C2_script_typos_witness :
    ((runEvents ["thermostat_tau", "dt", "r_cut", "nlist_exclusions",
        "n_steps", "state_alphas", "n_iterations", "pair_target_project",
        "states", "head_correction", "pairs_nbins", "pairs",
        "smoothing_window", "bond_project_path", "bond_job_id", "bonds",
        "angle_project_path", "angle_job_id", "angles"]
        ⟨pairFlowScope, []⟩ (pairFlowOptimizeTrace false 1 1)).2).isSome
      = true
    ∧ (runEvents ["thermostat_tau", "dt", "r_cut", "nlist_exclusions",
        "n_steps", "state_alphas", "n_iterations", "pair_target_project",
        "states", "head_correction", "pairs_nbins", "pairs",
        "smoothing_window", "bond_project_path", "bond_job_id", "bonds",
        "angle_project_path", "angle_job_id", "angles"]
        ⟨pairFlowScope, []⟩
        (pairFlowOptimizeTrace false 1 1)).1.doc.lookup "done"
      = some (.bool false) :=
  C2_script_typos.1 _ [] false 1 1

/-- The indices at which an operation trace calls the external function
`f`. -/
def callIdxs (f : String) (T : List PyEvent) : List ℕ :=
  (List.range T.length).filter
    (fun i => decide (T.get? i = some (.extCall f)))

/-- The shrink-stage property the claim asserts of a `run_npt` body: every
temperature-ramp and `run_update_volume` call is executed before every
constant-volume `run_NVT` call and before every `save_restart_gsd` call. -/
abbrev shrinkStageFirst (T : List PyEvent) : Prop :=
  ∀ i ∈ callIdxs "sim.temperature_ramp" T
      ++ callIdxs "sim.run_update_volume" T,
    (∀ j ∈ callIdxs "sim.run_NVT" T, i < j)
    ∧ (∀ j ∈ callIdxs "sim.save_restart_gsd" T, i < j)

/-- The job-document fields of `training-runs/bulk-states/project.py` that
its completion predicates read (both seeded `False` by its `init.py`). -/
structure BulkDoc where
  sim_done : Bool
  sample_done : Bool
deriving DecidableEq, Repr

/-- `sim_done(job)` of `training-runs/bulk-states/project.py`. -/
def sim_done (d : BulkDoc) : Bool := d.sim_done

/-- `sample_done(job)` of `training-runs/bulk-states/project.py`. -/
def sample_done (d : BulkDoc) : Bool := d.sample_done

/-- The `npt` operation (`run_npt`) of bulk-states: no pre, post
`sim_done`; its body never writes `sim_done` or `sample_done`. -/
def bulk_run_npt_op : FlowOp BulkDoc :=
  { name := "npt", pre := [], post := [sim_done], effect := id }

/-- The `sample-npt` operation (`sample_npt`) of bulk-states: pre
`sim_done`, post `sample_done`; its body is empty. -/
def bulk_sample_npt_op : FlowOp BulkDoc :=
  { name := "sample-npt", pre := [sim_done], post := [sample_done],
    effect := id }

/-- The operations of `training-runs/bulk-states/project.py`. -/
def bulkOps : List (FlowOp BulkDoc) :=
  [bulk_run_npt_op, bulk_sample_npt_op]

/-- C7 counterexample: in `run_npt` of
`training-runs/bulk-states/project.py` the shrink stage is not entirely
executed before every constant-volume run — the `run_NVT` at line 154 comes
before the compress/expand `run_update_volume` calls at lines 157 and
166. -/
theorem C7_counterexample : ¬ shrinkStageFirst bulkRunNptTrace := by
  decide

/-- C7 (amended): in `validation/project.py` `run_npt`, the temperature
ramp and both `run_update_volume` calls are executed before every
`run_NVT`, every `run_NPT` and every `save_restart_gsd` call.  In
`training-runs/bulk-states` `run_npt`, all `run_update_volume` calls come
before the restart save, the final equilibration `run_NVT` comes after the
whole shrink stage, but one intermediate `run_NVT` is executed between
shrink sub-steps.  The sampling operation `sample-npt` is a separate
workflow operation gated on the completion predicate `sim_done` of the
simulation operation. -/
theorem C7_amended_staging :
    shrinkStageFirst validationRunNptTrace
    ∧ (∀ i ∈ callIdxs "sim.temperature_ramp" validationRunNptTrace
          ++ callIdxs "sim.run_update_volume" validationRunNptTrace,
        ∀ j ∈ callIdxs "sim.run_NPT" validationRunNptTrace, i < j)
    ∧ (∀ i ∈ callIdxs "sim.run_update_volume" bulkRunNptTrace,
        ∀ j ∈ callIdxs "sim.save_restart_gsd" bulkRunNptTrace, i < j)
    ∧ (∃ j ∈ callIdxs "sim.run_NVT" bulkRunNptTrace,
        ∀ i ∈ callIdxs "sim.temperature_ramp" bulkRunNptTrace
            ++ callIdxs "sim.run_update_volume" bulkRunNptTrace, i < j)
    ∧ (∃ i ∈ callIdxs "sim.run_NVT" bulkRunNptTrace,
        ∃ j ∈ callIdxs "sim.run_update_volume" bulkRunNptTrace, i < j)
    ∧ (∀ (d : BulkDoc) (op : FlowOp BulkDoc) (d' : BulkDoc),
        FlowStep bulkOps d op d' →
        (∀ p ∈ op.pre, p d = true)
        ∧ (op.name = "sample-npt" → d.sim_done = true)) := by
  refine ⟨by decide, by decide, by decide, by decide, by decide, ?_⟩
  intro d op d' hstep
  cases hstep with
  | run op d hop helig =>
    have hpre : ∀ p ∈ op.pre, p d = true := by
      intro p hp
      have hall := helig
      unfold eligible at hall
      rw [Bool.and_eq_true] at hall
      exact List.all_eq_true.1 hall.1 p hp
    simp only [bulkOps, List.mem_cons, List.not_mem_nil, or_false] at hop
    rcases hop with rfl | rfl
    · exact ⟨hpre, fun h => absurd h (by decide)⟩
    · exact ⟨hpre, fun _ => hpre sim_done (by simp [bulk_sample_npt_op])⟩

/-- Witness for the amended C7: a concrete eligible `sample-npt` step on a
job with `sim_done = True`. -/
theorem C7_amended_staging_witness :
    (∀ p ∈ bulk_sample_npt_op.pre, p (⟨true, false⟩ : BulkDoc) = true)
    ∧ (bulk_sample_npt_op.name = "sample-npt" →
        (⟨true, false⟩ : BulkDoc).sim_done = true) :=
  C7_amended_staging.2.2.2.2.2 _ _ _
    (FlowStep.run _ _ (by simp [bulkOps]) (by decide))

/-- The names in scope inside `optimize` of `msibi-flow/bond-flow/project.py`
before its body runs. -/
def bondFlowScope : List String :=
  ["job", "print", "enumerate", "zip", "open", "range",
   "os", "signac", "FlowProject", "DefaultSlurmEnvironment",
   "BondMSIBI", "Borah", "Fry", "completed", "get_file", "optimize"]

/-- `optimize` (bond-flow), lines 60–78: the function-level imports,
entering `with job:`, the `if os.path.exists(...)` block, and
`opt = MSIBI(...)`. -/
def bondFlowHead (sExists : Bool) : List PyEvent :=
  [.bindName "MSIBI", .bindName "State", .bindName "Bond",
   .bindName "hoomd", .bindName "os",
   .useName "job", .extCall "with job",
   .useName "os", .useName "job", .useJobAttr "fn",
   .extCall "os.path.exists"]
  ++ (if sExists then
      [.useName "job", .useJobAttr "fn", .bindName "dir_path",
       .useName "os", .useName "dir_path", .extCall "os.system"]
    else [])
  ++ [.useName "print",
   .useName "MSIBI",
   .useName "job", .useJobAttr "sp", .useSpKey "nlist",
   .useName "hoomd", .useName "hoomd",
   .useName "job", .useJobAttr "sp", .useSpKey "thermostat_tau",
   .useName "job", .useJobAttr "sp", .useSpKey "dt",
   .useName "job", .useJobAttr "sp", .useSpKey "n_steps",
   .useName "job", .useJobAttr "sp", .useSpKey "nlist_exclusions",
   .extCall "MSIBI", .bindName "opt"]

/-- `optimize` (bond-flow), lines 80–86: opening the single-chain target
project and job, recording `job.doc.target_state_path`, and the header of
the states loop. -/
def bondFlowStatesSetup : List PyEvent :=
  [.useName "print",
   .useName "signac", .useName "job", .useJobAttr "sp",
   .useSpKey "single_chain_path", .extCall "signac.get_project",
   .bindName "single_chain_project",
   .useName "single_chain_project", .useName "job", .useJobAttr "sp",
   .useSpKey "single_chain_job_id", .extCall "open_job",
   .bindName "single_chain_job",
   .useName "single_chain_job", .useName "job", .useJobAttr "doc",
   .docWrite "target_state_path" (.str "single_chain_job.path"),
   .useName "enumerate", .useName "job", .useJobAttr "sp",
   .useSpKey "states"]

/-- `optimize` (bond-flow), lines 86–96: one iteration of the states
loop. -/
def bondFlowStateLoopBody : List PyEvent :=
  [.bindName "idx", .bindName "state",
   .useName "print", .useName "state",
   .useName "single_chain_job", .useName "state", .bindName "gsd_file",
   .useName "State",
   .useName "state",
   .useName "single_chain_job",
   .useName "gsd_file",
   .useName "state",
   .useName "job", .useJobAttr "sp", .useSpKey "state_alphas",
   .extCall "State", .bindName "state",
   .useName "opt", .useName "state", .extCall "opt.add_state"]

/-- `optimize` (bond-flow), lines 98–114: `AA_bond = Bond(...)`,
`AA_bond.set_quadratic(...)` (six `job.sp.bonds` accesses),
`opt.add_force(AA_bond)`, and the print. -/
def bondFlowBondSetup : List PyEvent :=
  [.useName "Bond",
   .useName "job", .useJobAttr "sp", .useSpKey "bonds",
   .useName "job", .useJobAttr "sp", .useSpKey "bonds",
   .useName "job", .useJobAttr "sp", .useSpKey "bonds_nbins",
   .extCall "Bond", .bindName "AA_bond",
   .useName "AA_bond",
   .useName "job", .useJobAttr "sp", .useSpKey "bonds",
   .useName "job", .useJobAttr "sp", .useSpKey "bonds",
   .useName "job", .useJobAttr "sp", .useSpKey "bonds",
   .useName "job", .useJobAttr "sp", .useSpKey "bonds",
   .useName "job", .useJobAttr "sp", .useSpKey "bonds",
   .useName "job", .useJobAttr "sp", .useSpKey "bonds",
   .extCall "AA_bond.set_quadratic",
   .useName "opt", .useName "AA_bond", .extCall "opt.add_force",
   .useName "print"]

/-- `optimize` (bond-flow), lines 116–118: the header of the optimization
loop. -/
def bondFlowOptHeader : List PyEvent :=
  [.useName "zip",
   .useName "job", .useJobAttr "sp", .useSpKey "n_iterations",
   .useName "job", .useJobAttr "sp", .useSpKey "n_steps",
   .useName "job", .useJobAttr "sp", .useSpKey "state_alphas"]

/-- `optimize` (bond-flow), lines 119–125: one iteration of the
optimization loop. -/
def bondFlowOptLoopBody : List PyEvent :=
  [.bindName "n_iterations", .bindName "n_steps", .bindName "alpha",
   .useName "state", .useName "alpha", .extCall "state.set_alpha",
   .useName "opt", .useName "n_steps", .useName "n_iterations",
   .extCall "opt.run_optimization",
   .useName "AA_bond", .extCall "AA_bond.smooth_potential"]

/-- `optimize` (bond-flow), lines 127–140: saving the optimized bond
potential CSV, its history, the plots, and the header of the final states
loop. -/
def bondFlowSave : List PyEvent :=
  [.useName "AA_bond", .useName "job", .useJobAttr "fn", .useName "AA_bond",
   .extCall "AA_bond.save_potential",
   .useName "AA_bond", .useName "job", .useJobAttr "fn", .useName "AA_bond",
   .extCall "AA_bond.save_potential_history",
   .useName "AA_bond", .useName "job", .useJobAttr "fn", .useName "AA_bond",
   .extCall "AA_bond.plot_potentials",
   .useName "AA_bond", .useName "job", .useJobAttr "fn", .useName "AA_bond",
   .extCall "AA_bond.plot_potential_history",
   .useName "opt"]

/-- `optimize` (bond-flow), lines 140–164: one iteration of the final
per-state save/plot loop. -/
def bondFlowFinalLoopBody : List PyEvent :=
  [.bindName "state",
   .useName "AA_bond", .useName "state", .useName "job", .useJobAttr "fn",
   .useName "state", .useName "AA_bond",
   .extCall "AA_bond.save_state_data",
   .useName "AA_bond", .useName "state", .useName "job", .useJobAttr "fn",
   .useName "state", .useName "AA_bond",
   .extCall "AA_bond.plot_fit_scores",
   .useName "AA_bond", .useName "state", .useName "job", .useJobAttr "fn",
   .useName "state", .useName "AA_bond",
   .extCall "AA_bond.plot_target_distribution",
   .useName "AA_bond", .useName "state", .useName "job", .useJobAttr "fn",
   .useName "state", .useName "AA_bond",
   .extCall "AA_bond.plot_distribution_comparison"]

/-- Everything of `optimize` of `msibi-flow/bond-flow/project.py` before
the final document write of line 167: the whole body except the trailing
`docWrite` of `job.doc["done"] = True` (whose `job`/`doc` accesses close
this list). -/
def bondFlowFront (sExists : Bool) (nStates nOpt : ℕ) : List PyEvent :=
  bondFlowHead sExists ++ bondFlowStatesSetup
  ++ ((List.range nStates).flatMap fun _ => bondFlowStateLoopBody)
  ++ bondFlowBondSetup
  ++ bondFlowOptHeader
  ++ ((List.range nOpt).flatMap fun _ => bondFlowOptLoopBody)
  ++ bondFlowSave
  ++ ((List.range nStates).flatMap fun _ => bondFlowFinalLoopBody)
  ++ [.useName "print", .useName "job", .useJobAttr "doc"]

/-- The whole body of `optimize` of `msibi-flow/bond-flow/project.py`
(lines 59–167), as the sequence of events it executes; the write of
`job.doc["done"] = True` is its very last event. -/
def bondFlowOptimizeTrace (sExists : Bool) (nStates nOpt : ℕ) :
    List PyEvent :=
  bondFlowFront sExists nStates nOpt ++ [.docWrite "done" (.bool true)]

lemma bond_front_no_done_write (sExists : Bool) (nStates nOpt : ℕ) :
    ∀ e ∈ bondFlowFront sExists nStates nOpt,
      writesKey "done" e = false := by
  unfold bondFlowFront
  refine List.forall_mem_append.2 ⟨List.forall_mem_append.2
    ⟨List.forall_mem_append.2 ⟨List.forall_mem_append.2
      ⟨List.forall_mem_append.2 ⟨List.forall_mem_append.2
        ⟨List.forall_mem_append.2 ⟨List.forall_mem_append.2
          ⟨?_, ?_⟩, ?_⟩, ?_⟩, ?_⟩, ?_⟩, ?_⟩, ?_⟩, ?_⟩
  · unfold bondFlowHead
    refine List.forall_mem_append.2 ⟨List.forall_mem_append.2
      ⟨by decide, ?_⟩, by decide⟩
    cases sExists <;> decide
  · decide
  · exact notWrites_flatMap (by decide)
  · decide
  · decide
  · exact notWrites_flatMap (by decide)
  · decide
  · exact notWrites_flatMap (by decide)
  · decide

/-- C4: in `msibi-flow/bond-flow/project.py` `optimize`, the completion
flag `job.doc["done"] = True` is the final action of the body, coming after
the potential CSV, history and per-state data/plot files are written, and
no earlier statement writes `done`; consequently, an execution that stops
at any earlier point (an exception at any prefix of the body) leaves the
`done` key of the job document exactly as it was, so the post-condition
`completed(job)` is not established. -/
theorem C4_done_flag_is_last :
    (∀ (sExists : Bool) (nStates nOpt : ℕ),
        bondFlowOptimizeTrace sExists nStates nOpt
          = bondFlowFront sExists nStates nOpt
            ++ [.docWrite "done" (.bool true)])
    ∧ (∀ (sExists : Bool) (nStates nOpt : ℕ),
        ∀ e ∈ bondFlowFront sExists nStates nOpt,
          writesKey "done" e = false)
    ∧ (∀ (sExists : Bool) (nStates nOpt : ℕ),
        PyEvent.extCall "AA_bond.save_potential"
          ∈ bondFlowFront sExists nStates nOpt
        ∧ PyEvent.extCall "AA_bond.save_potential_history"
          ∈ bondFlowFront sExists nStates nOpt
        ∧ (1 ≤ nStates → PyEvent.extCall "AA_bond.save_state_data"
            ∈ bondFlowFront sExists nStates nOpt))
    ∧ (∀ (spKeys : List String) (st : PyState) (sExists : Bool)
          (nStates nOpt n : ℕ),
        n ≤ (bondFlowFront sExists nStates nOpt).length →
        (runEvents spKeys st
          ((bondFlowOptimizeTrace sExists nStates nOpt).take
            n)).1.doc.lookup "done" = st.doc.lookup "done") := by
  refine ⟨fun _ _ _ => rfl, bond_front_no_done_write, ?_, ?_⟩
  · intro sExists nStates nOpt
    refine ⟨?_, ?_, ?_⟩
    · unfold bondFlowFront
      simp only [List.mem_append]
      exact Or.inl (Or.inl (Or.inr (by decide)))
    · unfold bondFlowFront
      simp only [List.mem_append]
      exact Or.inl (Or.inl (Or.inr (by decide)))
    · intro h1
      unfold bondFlowFront
      simp only [List.mem_append]
      refine Or.inl (Or.inr ?_)
      exact List.mem_flatMap.2 ⟨0, List.mem_range.2 h1, by decide⟩
  · intro spKeys st sExists nStates nOpt n hn
    have htake : (bondFlowOptimizeTrace sExists nStates nOpt).take n
        = (bondFlowFront sExists nStates nOpt).take n := by
      unfold bondFlowOptimizeTrace
      rw [List.take_append_eq_append_take,
        Nat.sub_eq_zero_of_le hn, List.take_zero, List.append_nil]
    rw [htake]
    apply runEvents_doc_lookup
    intro e he
    exact bond_front_no_done_write sExists nStates nOpt e
      (List.take_subset n _ he)

/-- Witness for C4 at a concrete configuration and prefix length. -/
theorem C4_done_flag_is_last_witness :
    (0 ≤ (bondFlowFront false 1 1).length
      ∧ (runEvents [] ⟨[], []⟩
          ((bondFlowOptimizeTrace false 1 1).take 0)).1.doc.lookup "done"
        = ([] : List (String × PVal)).lookup "done")
    ∧ (1 ≤ 1 ∧ PyEvent.extCall "AA_bond.save_state_data"
        ∈ bondFlowFront false 1 1) :=
  ⟨⟨Nat.zero_le _,
    C4_done_flag_is_last.2.2.2 [] ⟨[], []⟩ false 1 1 0 (Nat.zero_le _)⟩,
   ⟨Nat.le_refl 1,
    (C4_done_flag_is_last.2.2.1 false 1 1).2.2 (Nat.le_refl 1)⟩⟩

end PPSMSIBI
